import Mathlib

/-!
# Verification of the repository-factory wizard core

Shallow embedding of the step-sequencing / wizard-state-machine core of the
`vsx-github-repo-factory` extension, together with the validation utilities
(`src/utils/validation.ts`), the settings-patch builder
(`src/utils/settings.ts`), the creation-flow wizard and orchestration
(`src/commands/create.ts`), and the modification-flow wizard
(`src/commands/modify.ts`).  Strings are modeled as `String` / `List Char`,
JavaScript `undefined` as `Option.none`, and JavaScript truthiness of strings
(`""` is falsy) by explicit emptiness tests.
-/

namespace RepoFactory

/-! ## JavaScript string primitives -/

/-- The whitespace characters removed by JavaScript `String.prototype.trim`
(restricted to the ASCII range, which is all the code ever manipulates). -/
def isJsSpace (c : Char) : Bool :=
  c = ' ' || c = '\t' || c = '\n' || c = '\r' || c = '\x0b' || c = '\x0c'

/-- Trim from the left: `dropWhile` on the leading whitespace. -/
def trimLeadL (l : List Char) : List Char := l.dropWhile isJsSpace

/-- Trim from the right, implemented by reversing. -/
def trimTrailL (l : List Char) : List Char := (l.reverse.dropWhile isJsSpace).reverse

/-- JavaScript `s.trim()` on a character list. -/
def jsTrim (l : List Char) : List Char := trimTrailL (trimLeadL l)

/-- JavaScript `s.trim()` on a `String`. -/
def jsTrimS (s : String) : String := String.mk (jsTrim s.toList)

/-- JavaScript `a || b` for strings: `a` unless `a` is absent or empty. -/
def jsOrElse (a : Option String) (b : String) : String :=
  match a with
  | some s => if s = "" then b else s
  | none => b

/-- ASCII lower-casing, as used by `trimmed.toLowerCase()` on the names the
validator sees. -/
def asciiLower (c : Char) : Char :=
  if 'A' ≤ c && c ≤ 'Z' then Char.ofNat (c.toNat + 32) else c

/-! ## `src/utils/validation.ts` -/

/-- The `ValidationResult` interface of `validation.ts`. -/
structure ValidationResult where
  valid : Bool
  error : Option String
deriving DecidableEq

/-- One character of the branch-name pattern (alphanumeric, dot, underscore,
slash, hyphen). -/
def isBranchChar (c : Char) : Bool :=
  c.isAlpha || c.isDigit || c = '.' || c = '_' || c = '/' || c = '-'

/-- One character of the repository-name pattern (alphanumeric, dot,
underscore, hyphen). -/
def isRepoChar (c : Char) : Bool :=
  c.isAlpha || c.isDigit || c = '.' || c = '_' || c = '-'

/-- `trimmed.includes("..")`. -/
def hasConsecutiveDots : List Char → Bool
  | c1 :: c2 :: rest => (c1 = '.' && c2 = '.') || hasConsecutiveDots (c2 :: rest)
  | _ => false

/-- The reserved names list of `validateBranchName`, verbatim from the source
(note the source compares `trimmed.toLowerCase()` against the upper-case
literal `HEAD`, so that entry can never match). -/
def reservedBranchNames : List (List Char) :=
  [".git".toList, "HEAD".toList, "refs".toList]

/-- The branch-name checks applied to the already-trimmed name (the body of
`validateBranchName` after `const trimmed = branchName.trim()`; the leading
emptiness rejection is folded in as the first test). -/
def branchChecks (trimmed : List Char) : ValidationResult :=
  if trimmed.isEmpty then
    ⟨false, some "Branch name cannot be empty"⟩
  else if trimmed.length > 255 then
    ⟨false, some "Branch name exceeds maximum length of 255 characters"⟩
  else if trimmed.head? = some '.' || trimmed.getLast? = some '.'
      || trimmed.head? = some '/' || trimmed.getLast? = some '/'
      || trimmed.head? = some '\\' || trimmed.getLast? = some '\\' then
    ⟨false, some "Branch name cannot start or end with . / or backslash"⟩
  else if hasConsecutiveDots trimmed then
    ⟨false, some "Branch name cannot contain consecutive dots (..)"⟩
  else if !trimmed.all isBranchChar then
    ⟨false, some "Branch name contains invalid characters. Only alphanumeric, -, _, ., and / are allowed"⟩
  else if reservedBranchNames.contains (trimmed.map asciiLower) then
    ⟨false, some "Branch name is reserved"⟩
  else
    ⟨true, none⟩

/-- `validateBranchName` of `validation.ts` (the `!branchName ||
branchName.trim().length === 0` guard is exactly emptiness of the trimmed
name). -/
def validateBranchNameL (l : List Char) : ValidationResult :=
  branchChecks (jsTrim l)

/-- `validateBranchName` on a `String`. -/
def validateBranchName (s : String) : ValidationResult :=
  validateBranchNameL s.toList

/-- `generateBranchName` of `validation.ts`: prefix the base name with the
issue number when one is present and positive. -/
def generateBranchName (issueNumber : Option Nat) (baseName : String) : String :=
  match issueNumber with
  | some n => if n > 0 then toString n ++ "-" ++ baseName else baseName
  | none => baseName

/-- The repository-name checks applied to the already-trimmed name (the body
of `validateRepoName` after `const trimmed = repoName.trim()`). -/
def repoChecks (trimmed : List Char) : ValidationResult :=
  if trimmed.isEmpty then
    ⟨false, some "Repository name cannot be empty"⟩
  else if trimmed.length > 100 then
    ⟨false, some "Repository name exceeds maximum length of 100 characters"⟩
  else if trimmed.head? = some '.' || trimmed.getLast? = some '.' then
    ⟨false, some "Repository name cannot start or end with a dot"⟩
  else if hasConsecutiveDots trimmed then
    ⟨false, some "Repository name cannot contain consecutive dots (..)"⟩
  else if !trimmed.all isRepoChar then
    ⟨false, some "Repository name contains invalid characters. Only alphanumeric, -, _, and . are allowed"⟩
  else
    ⟨true, none⟩

/-- `validateRepoName` of `validation.ts`. -/
def validateRepoNameL (l : List Char) : ValidationResult :=
  repoChecks (jsTrim l)

/-- `validateRepoName` on a `String`. -/
def validateRepoName (s : String) : ValidationResult :=
  validateRepoNameL s.toList

/-! ## `src/types.ts`: `RepositorySettings` and `CreateRepoOptions` -/

/-- The `RepositorySettings` interface: every field optional (`undefined`
modeled as `none`). -/
structure RepositorySettings where
  description : Option String := none
  visibility : Option String := none
  hasWiki : Option Bool := none
  hasIssues : Option Bool := none
  hasProjects : Option Bool := none
  hasDiscussions : Option Bool := none
  allowSquashMerge : Option Bool := none
  allowMergeCommit : Option Bool := none
  allowRebaseMerge : Option Bool := none
  allowAutoMerge : Option Bool := none
  deleteBranchOnMerge : Option Bool := none
  allowUpdateBranch : Option Bool := none
  webCommitSignoffRequired : Option Bool := none
deriving DecidableEq

/-- The setting keys of `RepositorySettings`. -/
inductive SettingKey
  | description | visibility | hasWiki | hasIssues | hasProjects | hasDiscussions
  | allowSquashMerge | allowMergeCommit | allowRebaseMerge | allowAutoMerge
  | deleteBranchOnMerge | allowUpdateBranch | webCommitSignoffRequired
deriving DecidableEq, Fintype

/-- A setting value: a string (description / visibility) or a boolean. -/
inductive SettingVal
  | str (v : String)
  | flag (v : Bool)
deriving DecidableEq

/-- Uniform field access on `RepositorySettings`. -/
def getKey (s : RepositorySettings) : SettingKey → Option SettingVal
  | .description => s.description.map .str
  | .visibility => s.visibility.map .str
  | .hasWiki => s.hasWiki.map .flag
  | .hasIssues => s.hasIssues.map .flag
  | .hasProjects => s.hasProjects.map .flag
  | .hasDiscussions => s.hasDiscussions.map .flag
  | .allowSquashMerge => s.allowSquashMerge.map .flag
  | .allowMergeCommit => s.allowMergeCommit.map .flag
  | .allowRebaseMerge => s.allowRebaseMerge.map .flag
  | .allowAutoMerge => s.allowAutoMerge.map .flag
  | .deleteBranchOnMerge => s.deleteBranchOnMerge.map .flag
  | .allowUpdateBranch => s.allowUpdateBranch.map .flag
  | .webCommitSignoffRequired => s.webCommitSignoffRequired.map .flag

/-- Uniform boolean-field update on `RepositorySettings` (the advanced-settings
loop and the modification flow only write boolean keys this way). -/
def setFlagKey (k : SettingKey) (b : Bool) (s : RepositorySettings) : RepositorySettings :=
  match k with
  | .description => s
  | .visibility => s
  | .hasWiki => { s with hasWiki := some b }
  | .hasIssues => { s with hasIssues := some b }
  | .hasProjects => { s with hasProjects := some b }
  | .hasDiscussions => { s with hasDiscussions := some b }
  | .allowSquashMerge => { s with allowSquashMerge := some b }
  | .allowMergeCommit => { s with allowMergeCommit := some b }
  | .allowRebaseMerge => { s with allowRebaseMerge := some b }
  | .allowAutoMerge => { s with allowAutoMerge := some b }
  | .deleteBranchOnMerge => { s with deleteBranchOnMerge := some b }
  | .allowUpdateBranch => { s with allowUpdateBranch := some b }
  | .webCommitSignoffRequired => { s with webCommitSignoffRequired := some b }

/-- The finalized options object of the creation flow (`CreateRepoOptions`). -/
structure CreateRepoOptions where
  name : String
  description : String
  visibility : String
  owner : String
  template : Option String := none
  addReadme : Bool := false
  license : Option String := none
  createIssue : Bool := false
  issueTitle : Option String := none
  issueBody : Option String := none
  createBranch : Bool := false
  branchName : Option String := none
  setupWorkspace : Bool := false
  settings : Option RepositorySettings := none
deriving DecidableEq

/-! ## `src/utils/settings.ts`: `applyRepositorySettings` -/

/-- One `if` block of `applyRepositorySettings`: include the key when its
condition holds. -/
def includeKey (cond : Bool) (k : SettingKey) : List SettingKey :=
  if cond then [k] else []

/-- The `currentSettings === undefined || currentSettings.f !== settings.f`
condition of each block. -/
def diffFrom {α : Type} [DecidableEq α] (cur : Option RepositorySettings)
    (proj : RepositorySettings → Option α) (v : Option α) : Bool :=
  match cur with
  | none => true
  | some c => decide (proj c ≠ v)

/-- The keys of the `apiSettings` object built by `applyRepositorySettings`:
thirteen blocks, each adding its key when the value is supplied and differs
from the current one (or no current settings were passed). -/
def patchKeys (settings : RepositorySettings) (cur : Option RepositorySettings) :
    List SettingKey :=
  includeKey (settings.description.isSome &&
    diffFrom cur (fun c => c.description) settings.description) .description ++
  includeKey (settings.visibility.isSome &&
    diffFrom cur (fun c => c.visibility) settings.visibility) .visibility ++
  includeKey (settings.hasWiki.isSome &&
    diffFrom cur (fun c => c.hasWiki) settings.hasWiki) .hasWiki ++
  includeKey (settings.hasIssues.isSome &&
    diffFrom cur (fun c => c.hasIssues) settings.hasIssues) .hasIssues ++
  includeKey (settings.hasProjects.isSome &&
    diffFrom cur (fun c => c.hasProjects) settings.hasProjects) .hasProjects ++
  includeKey (settings.hasDiscussions.isSome &&
    diffFrom cur (fun c => c.hasDiscussions) settings.hasDiscussions) .hasDiscussions ++
  includeKey (settings.allowSquashMerge.isSome &&
    diffFrom cur (fun c => c.allowSquashMerge) settings.allowSquashMerge) .allowSquashMerge ++
  includeKey (settings.allowMergeCommit.isSome &&
    diffFrom cur (fun c => c.allowMergeCommit) settings.allowMergeCommit) .allowMergeCommit ++
  includeKey (settings.allowRebaseMerge.isSome &&
    diffFrom cur (fun c => c.allowRebaseMerge) settings.allowRebaseMerge) .allowRebaseMerge ++
  includeKey (settings.allowAutoMerge.isSome &&
    diffFrom cur (fun c => c.allowAutoMerge) settings.allowAutoMerge) .allowAutoMerge ++
  includeKey (settings.deleteBranchOnMerge.isSome &&
    diffFrom cur (fun c => c.deleteBranchOnMerge) settings.deleteBranchOnMerge) .deleteBranchOnMerge ++
  includeKey (settings.allowUpdateBranch.isSome &&
    diffFrom cur (fun c => c.allowUpdateBranch) settings.allowUpdateBranch) .allowUpdateBranch ++
  includeKey (settings.webCommitSignoffRequired.isSome &&
    diffFrom cur (fun c => c.webCommitSignoffRequired) settings.webCommitSignoffRequired)
    .webCommitSignoffRequired

/-- Result of `applyRepositorySettings` (the PATCH call itself is external;
`patchOk` is the success it reports, `apiCalled` records whether the call was
issued at all). -/
structure ApplyResult where
  success : Bool
  errors : List String
  noChanges : Bool
  apiCalled : Bool
deriving DecidableEq

/-- `applyRepositorySettings`: if no key survives the difference filter,
return `noChanges` without calling the remote API; otherwise issue exactly one
PATCH and report its outcome. -/
def applyRepositorySettings (settings : RepositorySettings)
    (cur : Option RepositorySettings) (patchOk : Bool) : ApplyResult :=
  let keys := patchKeys settings cur
  if keys.isEmpty then
    { success := true, errors := [], noChanges := true, apiCalled := false }
  else if patchOk then
    { success := true, errors := [], noChanges := false, apiCalled := true }
  else
    { success := false, errors := ["Failed to apply repository settings"],
      noChanges := false, apiCalled := true }

/-! ## The creation flow (`collectUserInputs` of `create.ts`)

The wizard is a loop over an explicit current step and a mutable record of
collected values.  Each loop iteration renders at most one prompt; two
configurations transition without prompting (the owner-missing guard of the
name step and the automatic branch skip).  A crucial detail of the source is
that on every quick-pick step the `onDidAccept` handler converts an accepted
`← Back` item into that step's *default* option before the `label === "← Back"`
test runs, so the `moveToPreviousStep` branches of the quick-pick steps are
unreachable. -/

/-- The `Step` enum of `collectUserInputs`. -/
inductive CStep
  | owner | name | description | visibility | template | readme | license
  | issue | branch | workspace | advanced | done
deriving DecidableEq

/-- The `StepState` record of `collectUserInputs`.  Quick-pick selections that
the source stores as `{label}` objects are modeled by their label. -/
structure CState where
  selectedOwner : Option String := none
  name : Option String := none
  description : Option String := none
  visibility : Option String := none
  useTemplate : Option String := none
  template : Option String := none
  addReadme : Option String := none
  license : Option String := none
  createIssue : Option String := none
  issueTitle : Option String := none
  issueBody : Option String := none
  createBranch : Option String := none
  branchName : Option String := none
  setupWorkspace : Option String := none
  advancedConfig : Option String := none
  settings : Option RepositorySettings := none
deriving DecidableEq

/-- JavaScript truthiness of an optional string (`undefined` and `""` are
falsy). -/
def jsFalsyStr (o : Option String) : Bool :=
  match o with
  | none => true
  | some s => s = ""

/-- `getStepSequence` of the creation flow: README and LICENSE are present
exactly when `state.template` is falsy. -/
def getStepSequenceC (st : CState) : List CStep :=
  let baseSteps : List CStep := [.owner, .name, .description, .visibility, .template]
  if !jsFalsyStr st.template then
    baseSteps ++ [.issue, .branch, .workspace, .advanced, .done]
  else
    baseSteps ++ [.readme, .license, .issue, .branch, .workspace, .advanced, .done]

/-- `getNextStep` of the creation flow (JavaScript `indexOf` returns `-1` on a
missing element, in which case the guard fails and `DONE` is returned). -/
def getNextStepC (st : CState) (cur : CStep) : CStep :=
  let seq := getStepSequenceC st
  if cur ∈ seq then
    let i := seq.indexOf cur
    if i < seq.length - 1 then seq.getD (i + 1) .done else .done
  else .done

/-- `moveToPreviousStep` of the creation flow, as a function of the current
step (on a missing current step the `currentIndex > 0` guard fails and the
step is left unchanged). -/
def prevStepC (st : CState) (cur : CStep) : CStep :=
  let seq := getStepSequenceC st
  if cur ∈ seq then
    let i := seq.indexOf cur
    if 0 < i then seq.getD (i - 1) .done else cur
  else cur

/-- The prompt order of the advanced-settings sub-flow (the `settingPrompts`
array). -/
def advKeys : List SettingKey :=
  [.hasIssues, .hasProjects, .hasWiki, .hasDiscussions, .allowSquashMerge,
   .allowMergeCommit, .allowRebaseMerge, .allowAutoMerge, .deleteBranchOnMerge,
   .allowUpdateBranch, .webCommitSignoffRequired]

/-- Outcome of the advanced-settings `while (settingIndex < settingPrompts.length)`
loop. -/
inductive AdvOutcome
  | exited
  | completed (s : RepositorySettings)
  | incomplete
deriving DecidableEq

/-- The advanced-settings loop.  Each response is the result of
`promptBooleanSetting`: `none` models both an accepted `← Back` item and a
dismissed picker (the source maps both to `null` and treats them as back);
`some b` a chosen value.  Backing past the first prompt exits the whole
sub-flow (`exited`). -/
def advLoop (idx : Nat) (s : RepositorySettings) : List (Option Bool) → AdvOutcome
  | [] => if idx < advKeys.length then .incomplete else .completed s
  | r :: rest =>
    if idx < advKeys.length then
      match r with
      | none => if 0 < idx then advLoop (idx - 1) s rest else .exited
      | some b => advLoop (idx + 1) (setFlagKey (advKeys.getD idx .hasIssues) b s) rest
    else .completed s

/-- A user response to one creation-flow prompt.  `dismiss` is pressing
Escape / hiding the widget.  `backSel` is accepting the `← Back` item of a
quick pick; its `extra` argument is the input of the text box that the
converted default answer may subsequently open (only the branch step opens
one, every other default is promptless). -/
inductive CAnswer
  | dismiss
  | backSel (extra : Option String)
  | pickOwner (v : String)
  | enterName (v : String)
  | enterDescription (v : String)
  | pickVisibility (v : String)
  | templateChoice (yes : Bool) (input : Option String)
  | readmeChoice (yes : Bool)
  | licenseChoice (v : String)
  | issueChoice (yes : Bool) (title : Option String) (body : Option String)
  | branchChoice (yes : Bool) (nameInput : Option String)
  | workspaceChoice (yes : Bool)
  | advancedChoice (yes : Bool) (responses : List (Option Bool))
deriving DecidableEq

/-- Result of one loop iteration of `collectUserInputs`. -/
inductive StepOutcome
  | cancelled
  | toStep (s : CStep) (st : CState)
  | finished (o : CreateRepoOptions)
  | mismatch
deriving DecidableEq

/-- The final `return {...}` of `collectUserInputs` (reached at the end of the
advanced step), including its `!state.name || !state.selectedOwner ||
!state.visibility` guard. -/
def buildOptions (st : CState) : StepOutcome :=
  if jsFalsyStr st.name || st.selectedOwner.isNone || jsFalsyStr st.visibility then
    .cancelled
  else
    .finished {
      name := st.name.getD ""
      description := jsOrElse st.description ""
      visibility := st.visibility.getD ""
      owner := st.selectedOwner.getD ""
      template := st.template
      addReadme := decide (st.addReadme = some "Yes")
      license := st.license
      createIssue := decide (st.createIssue = some "Yes")
      issueTitle := st.issueTitle
      issueBody := st.issueBody
      createBranch := decide (st.createBranch = some "Yes")
      branchName := st.branchName
      setupWorkspace := decide (st.setupWorkspace = some "Yes")
      settings := st.settings }

/-- The non-prompting transitions of the creation flow: the owner-missing
guard of the name step, and the automatic skip of the branch step when issue
creation was declined (`state.createIssue?.label === "No"`), which jumps to
the workspace step recording `createBranch = No`. -/
def autoStepC (st : CState) (s : CStep) : Option (CStep × CState) :=
  match s with
  | .name =>
    if st.selectedOwner.isNone then some (prevStepC st .name, st) else none
  | .branch =>
    if st.createIssue = some "No" then
      some (.workspace, { st with createBranch := some "No", branchName := none })
    else none
  | _ => none

/-- One prompting iteration of the `collectUserInputs` loop: the current
step's widget is rendered and `a` is the user's response.  `backSel` is
resolved exactly as the source's `onDidAccept` handlers do: it is replaced by
the step's default option (Private / No / None / Yes-for-branch) rather than
navigating backwards. -/
def stepCreate (st : CState) (s : CStep) (a : CAnswer) : StepOutcome :=
  match s with
  | .owner =>
    match a with
    | .dismiss => .cancelled
    | .pickOwner v =>
      let st2 := { st with selectedOwner := some v }
      .toStep (getNextStepC st2 .owner) st2
    | _ => .mismatch
  | .name =>
    match a with
    | .dismiss => .cancelled
    | .enterName v =>
      -- `validateInput` keeps the box open on an empty or invalid name (the
      -- remote existence probe of `validateInput` is assumed to report
      -- "does not exist"), and the inner `while` re-prompts on `""`.
      if v = "" then .toStep .name st
      else if !(validateRepoName v).valid then .toStep .name st
      else
        let st2 := { st with name := some v }
        .toStep (getNextStepC st2 .name) st2
    | _ => .mismatch
  | .description =>
    match a with
    | .dismiss => .cancelled
    | .enterDescription v =>
      let st2 := { st with description := some v }
      .toStep (getNextStepC st2 .description) st2
    | _ => .mismatch
  | .visibility =>
    match a with
    | .dismiss => .cancelled
    | .backSel _ =>
      let st2 := { st with visibility := some "private" }
      .toStep (getNextStepC st2 .visibility) st2
    | .pickVisibility v =>
      let st2 := { st with visibility := some v }
      .toStep (getNextStepC st2 .visibility) st2
    | _ => .mismatch
  | .template =>
    match a with
    | .dismiss => .cancelled
    | .backSel _ =>
      -- converted to the default "No" option
      let st2 := { st with useTemplate := some "No", template := none }
      .toStep .readme st2
    | .templateChoice yes input =>
      if yes then
        let st1 := { st with useTemplate := some "Yes" }
        match input with
        | none => .toStep .template st1
        | some t =>
          let st2 := { st1 with template := some t, addReadme := some "No", license := none }
          .toStep .issue st2
      else
        let st2 := { st with useTemplate := some "No", template := none }
        .toStep .readme st2
    | _ => .mismatch
  | .readme =>
    match a with
    | .dismiss => .cancelled
    | .backSel _ =>
      let st2 := { st with addReadme := some "No" }
      .toStep (getNextStepC st2 .readme) st2
    | .readmeChoice yes =>
      let st2 := { st with addReadme := some (if yes then "Yes" else "No") }
      .toStep (getNextStepC st2 .readme) st2
    | _ => .mismatch
  | .license =>
    match a with
    | .dismiss => .cancelled
    | .backSel _ =>
      let st2 := { st with license := none }
      .toStep (getNextStepC st2 .license) st2
    | .licenseChoice v =>
      let st2 := { st with license := if v ≠ "" && v ≠ "none" then some v else none }
      .toStep (getNextStepC st2 .license) st2
    | _ => .mismatch
  | .issue =>
    match a with
    | .dismiss => .cancelled
    | .backSel _ =>
      let st2 := { st with createIssue := some "No", issueTitle := none, issueBody := none }
      .toStep (getNextStepC st2 .issue) st2
    | .issueChoice yes title body =>
      if yes then
        let st1 := { st with createIssue := some "Yes" }
        match title with
        | none => .toStep .issue st1
        | some ti =>
          let st2 := { st1 with issueTitle := some ti }
          match body with
          | none => .toStep .issue st2
          | some bo =>
            let st3 := { st2 with issueBody := some bo }
            .toStep (getNextStepC st3 .issue) st3
      else
        let st2 := { st with createIssue := some "No", issueTitle := none, issueBody := none }
        .toStep (getNextStepC st2 .issue) st2
    | _ => .mismatch
  | .branch =>
    -- prompting case only; the auto skip is `autoStepC`
    match a with
    | .dismiss => .cancelled
    | .backSel extra =>
      -- converted to the default "Yes" option, which then opens the name box
      let st1 := { st with createBranch := some "Yes" }
      match extra with
      | none => .toStep .branch st1
      | some v =>
        let st2 := { st1 with branchName := some v }
        .toStep (getNextStepC st2 .branch) st2
    | .branchChoice yes nameInput =>
      if yes then
        let st1 := { st with createBranch := some "Yes" }
        match nameInput with
        | none => .toStep .branch st1
        | some v =>
          let st2 := { st1 with branchName := some v }
          .toStep (getNextStepC st2 .branch) st2
      else
        let st2 := { st with createBranch := some "No", branchName := none }
        .toStep (getNextStepC st2 .branch) st2
    | _ => .mismatch
  | .workspace =>
    match a with
    | .dismiss => .cancelled
    | .backSel _ =>
      let st2 := { st with setupWorkspace := some "No" }
      .toStep (getNextStepC st2 .workspace) st2
    | .workspaceChoice yes =>
      let st2 := { st with setupWorkspace := some (if yes then "Yes" else "No") }
      .toStep (getNextStepC st2 .workspace) st2
    | _ => .mismatch
  | .advanced =>
    match a with
    | .dismiss => .cancelled
    | .backSel _ =>
      buildOptions { st with advancedConfig := some "No", settings := none }
    | .advancedChoice yes responses =>
      if yes then
        let st1 := { st with advancedConfig := some "Yes" }
        match advLoop 0 {} responses with
        | .exited => buildOptions { st1 with advancedConfig := some "No", settings := none }
        | .completed s => buildOptions { st1 with settings := some s }
        | .incomplete => .mismatch
      else
        buildOptions { st with advancedConfig := some "No", settings := none }
    | _ => .mismatch
  | .done => .mismatch

/-- Overall result of a (partial) run of `collectUserInputs`. -/
inductive WizardResult
  | cancelled
  | finished (o : CreateRepoOptions)
  | pending (s : CStep) (st : CState)
  | mismatch
deriving DecidableEq

/-- The navigation loop of `collectUserInputs` driven by a list of prompt
responses.  Reaching `DONE` falls out of the loop and returns `null`
(`cancelled`); `pending` reports the configuration when the response list (or
fuel) is exhausted. -/
def runCreateWizard : Nat → CStep → CState → List CAnswer → WizardResult
  | 0, s, st, _ => .pending s st
  | fuel + 1, s, st, answers =>
    if s = .done then .cancelled
    else
      match autoStepC st s with
      | some (s2, st2) => runCreateWizard fuel s2 st2 answers
      | none =>
        match answers with
        | [] => .pending s st
        | a :: rest =>
          match stepCreate st s a with
          | .cancelled => .cancelled
          | .mismatch => .mismatch
          | .finished o => .finished o
          | .toStep s2 st2 => runCreateWizard fuel s2 st2 rest

/-! ## The modification flow (`collectModifications` of `modify.ts`) -/

/-- The `Step` enum of `collectModifications`. -/
inductive MStep
  | category
  | basicDescription | basicVisibility
  | featuresWiki | featuresIssues | featuresProjects | featuresDiscussions
  | prSquash | prMerge | prRebase | prAuto | prDeleteBranch | prUpdateBranch
  | generalSignoff
  | done
deriving DecidableEq

/-- Wizard state of the modification flow: the selected category and the
accumulating `modifications` record. -/
structure MState where
  selectedCategory : Option String := none
  modifications : RepositorySettings := {}
deriving DecidableEq

/-- `getStepSequence` of the modification flow (the `!category` test is
JavaScript truthiness). -/
def getStepSequenceM (category : Option String) : List MStep :=
  if jsFalsyStr category then [.category, .done]
  else
    if category.getD "" = "basic" then
      [.category, .basicDescription, .basicVisibility, .done]
    else if category.getD "" = "features" then
      [.category, .featuresWiki, .featuresIssues, .featuresProjects,
       .featuresDiscussions, .done]
    else if category.getD "" = "pr" then
      [.category, .prSquash, .prMerge, .prRebase, .prAuto, .prDeleteBranch,
       .prUpdateBranch, .done]
    else if category.getD "" = "general" then
      [.category, .generalSignoff, .done]
    else if category.getD "" = "all" then
      [.category, .basicDescription, .basicVisibility, .featuresWiki,
       .featuresIssues, .featuresProjects, .featuresDiscussions, .prSquash,
       .prMerge, .prRebase, .prAuto, .prDeleteBranch, .prUpdateBranch,
       .generalSignoff, .done]
    else [.category, .done]

/-- `getNextStep` of the modification flow. -/
def getNextStepM (category : Option String) (cur : MStep) : MStep :=
  let seq := getStepSequenceM category
  if cur ∈ seq then
    let i := seq.indexOf cur
    if i < seq.length - 1 then seq.getD (i + 1) .done else .done
  else .done

/-- `moveToPreviousStep` of the modification flow. -/
def prevStepM (category : Option String) (cur : MStep) : MStep :=
  let seq := getStepSequenceM category
  if cur ∈ seq then
    let i := seq.indexOf cur
    if 0 < i then seq.getD (i - 1) .done else cur
  else cur

/-- The setting key written by each boolean step of the modification flow. -/
def boolKeyOfM : MStep → Option SettingKey
  | .featuresWiki => some .hasWiki
  | .featuresIssues => some .hasIssues
  | .featuresProjects => some .hasProjects
  | .featuresDiscussions => some .hasDiscussions
  | .prSquash => some .allowSquashMerge
  | .prMerge => some .allowMergeCommit
  | .prRebase => some .allowRebaseMerge
  | .prAuto => some .allowAutoMerge
  | .prDeleteBranch => some .deleteBranchOnMerge
  | .prUpdateBranch => some .allowUpdateBranch
  | .generalSignoff => some .webCommitSignoffRequired
  | _ => none

/-- The category guard of each `collectModifications` handler (`currentStep
=== X && (selectedCategory === "..." || selectedCategory === "all")`). -/
def guardOkM (cat : Option String) : MStep → Bool
  | .category => true
  | .basicDescription => cat = some "basic" || cat = some "all"
  | .basicVisibility => cat = some "basic" || cat = some "all"
  | .featuresWiki => cat = some "features" || cat = some "all"
  | .featuresIssues => cat = some "features" || cat = some "all"
  | .featuresProjects => cat = some "features" || cat = some "all"
  | .featuresDiscussions => cat = some "features" || cat = some "all"
  | .prSquash => cat = some "pr" || cat = some "all"
  | .prMerge => cat = some "pr" || cat = some "all"
  | .prRebase => cat = some "pr" || cat = some "all"
  | .prAuto => cat = some "pr" || cat = some "all"
  | .prDeleteBranch => cat = some "pr" || cat = some "all"
  | .prUpdateBranch => cat = some "pr" || cat = some "all"
  | .generalSignoff => cat = some "general" || cat = some "all"
  | .done => true

/-- A user response to one modification-flow prompt.  `dismiss` covers both a
hidden widget and an accepted `← Back` item: the source maps both to the same
`null`/`undefined` result, which cancels at the category step and navigates
back everywhere else. -/
inductive MAnswer
  | dismiss
  | pickCategory (v : String)
  | enterDescription (v : String)
  | pickVisibility (v : String)
  | boolAnswer (b : Bool)
deriving DecidableEq

/-- Result of one loop iteration of `collectModifications`. -/
inductive MStepOutcome
  | cancelled
  | toStep (s : MStep) (st : MState)
  | mismatch
deriving DecidableEq

/-- When a handler's category guard fails, the iteration falls through to the
final `moveToNextStep()` without prompting. -/
def autoStepM (st : MState) (s : MStep) : Option MStep :=
  if s ≠ .done && !guardOkM st.selectedCategory s then
    some (getNextStepM st.selectedCategory s)
  else none

/-- One prompting iteration of the `collectModifications` loop. -/
def stepModify (st : MState) (s : MStep) (a : MAnswer) : MStepOutcome :=
  match s with
  | .category =>
    match a with
    | .dismiss => .cancelled
    | .pickCategory v =>
      let st2 := { st with selectedCategory := some v }
      .toStep (getNextStepM st2.selectedCategory .category) st2
    | _ => .mismatch
  | .basicDescription =>
    match a with
    | .dismiss => .toStep (prevStepM st.selectedCategory .basicDescription) st
    | .enterDescription v =>
      let st2 := { st with modifications := { st.modifications with description := some v } }
      .toStep (getNextStepM st2.selectedCategory .basicDescription) st2
    | _ => .mismatch
  | .basicVisibility =>
    match a with
    | .dismiss => .toStep (prevStepM st.selectedCategory .basicVisibility) st
    | .pickVisibility v =>
      let st2 := { st with modifications := { st.modifications with visibility := some v } }
      .toStep (getNextStepM st2.selectedCategory .basicVisibility) st2
    | _ => .mismatch
  | .done => .mismatch
  | s0 =>
    -- the eleven boolean steps, all of the shape
    --   result === null → moveToPreviousStep; otherwise write the key, moveToNextStep
    match boolKeyOfM s0 with
    | some k =>
      match a with
      | .dismiss => .toStep (prevStepM st.selectedCategory s0) st
      | .boolAnswer b =>
        let st2 := { st with modifications := setFlagKey k b st.modifications }
        .toStep (getNextStepM st2.selectedCategory s0) st2
      | _ => .mismatch
    | none => .mismatch

/-- `Object.keys(modifications).length > 0`. -/
def modsNonempty (m : RepositorySettings) : Bool :=
  m.description.isSome || m.visibility.isSome || m.hasWiki.isSome ||
  m.hasIssues.isSome || m.hasProjects.isSome || m.hasDiscussions.isSome ||
  m.allowSquashMerge.isSome || m.allowMergeCommit.isSome ||
  m.allowRebaseMerge.isSome || m.allowAutoMerge.isSome ||
  m.deleteBranchOnMerge.isSome || m.allowUpdateBranch.isSome ||
  m.webCommitSignoffRequired.isSome

/-- Overall result of a (partial) run of `collectModifications`: at `DONE` the
accumulated record is returned, or `null` (`cancelled`) when it is empty. -/
inductive MResult
  | cancelled
  | finished (m : RepositorySettings)
  | pending (s : MStep) (st : MState)
  | mismatch
deriving DecidableEq

/-- The navigation loop of `collectModifications` driven by a list of prompt
responses. -/
def runModifyWizard : Nat → MStep → MState → List MAnswer → MResult
  | 0, s, st, _ => .pending s st
  | fuel + 1, s, st, answers =>
    if s = .done then
      if modsNonempty st.modifications then .finished st.modifications else .cancelled
    else
      match autoStepM st s with
      | some s2 => runModifyWizard fuel s2 st answers
      | none =>
        match answers with
        | [] => .pending s st
        | a :: rest =>
          match stepModify st s a with
          | .cancelled => .cancelled
          | .mismatch => .mismatch
          | .toStep s2 st2 => runModifyWizard fuel s2 st2 rest

/-! ## The orchestration layer (`createRepository` of `create.ts`)

The `withProgress` body is a straight-line sequence of stages; the
cancellation token is polled at fixed program points.  External collaborators
(the `gh` CLI, the file system, the user's message-box choices) are supplied
through an environment record; the run is summarized as the ordered list of
observable effects (remote calls, message boxes, the rollback offer). -/

/-- The value read by `token.isCancellationRequested` at each poll site of
`createRepository`, in program order. -/
structure CancelEnv where
  atStart : Bool := false
  beforeCollect : Bool := false
  afterCollect : Bool := false
  beforeExistsCheck : Bool := false
  beforeCreate : Bool := false
  afterCreate : Bool := false
  beforeSettings : Bool := false
  beforeIssue : Bool := false
  beforeBranchLinked : Bool := false
  beforeBranchUnlinked : Bool := false
  beforeClone : Bool := false
  beforeWorkspace : Bool := false
deriving DecidableEq

/-- The user's choice in the `already exists` warning box. -/
inductive ExistsAction
  | skip | deleteRecreate | modifyExisting | dismissed
deriving DecidableEq

/-- The user's choice in the rollback offer box. -/
inductive RollbackAction
  | keep | delete | dismissed
deriving DecidableEq

/-- Environment of one `createRepository` run: token reads plus the outcome of
every external call and dialog. -/
structure OrchEnv where
  cancel : CancelEnv := {}
  ghInstalled : Bool := true
  ghAuthed : Bool := true
  collectResult : Option CreateRepoOptions := none
  repoExists : Bool := false
  existsAction : ExistsAction := .skip
  deleteExistingOk : Bool := true
  createCancelled : Bool := false
  createOk : Bool := true
  settingsErrors : List String := []
  issueNumber : Option Nat := none
  branchLinkedOk : Bool := true
  branchOk : Bool := true
  cloneOk : Bool := true
  openOk : Bool := true
  rollbackAction : RollbackAction := .keep
  rollbackDeleteOk : Bool := true
deriving DecidableEq

/-- Observable effects of a `createRepository` run, in order. -/
inductive Effect
  | errorMsg (tag : String)
  | infoMsg (tag : String)
  | warnMsg (tag : String)
  | warnAgg (errs : List String)
  | checkExistsCall
  | preDeleteCall
  | modifyCall
  | createCall
  | settingsCall
  | issueCall
  | branchLinkedCall
  | branchCall
  | cloneCall
  | scaffoldCall
  | openFolderCall
  | rollbackOffer
  | rollbackDeleteCall
deriving DecidableEq

/-- `handleCancellationAfterCreation`: one keep-or-delete offer; the delete
executor runs exactly when the user picks `Delete Repository` (a dismissed box
keeps the repository). -/
def handleCancelAfterCreation (env : OrchEnv) : List Effect :=
  .rollbackOffer ::
    match env.rollbackAction with
    | .delete =>
      .rollbackDeleteCall ::
        (if env.rollbackDeleteOk then [.infoMsg "rollbackDeleted"]
         else [.warnMsg "rollbackDeleteFailed"])
    | _ => [.infoMsg "rollbackKept"]

/-- The clone and workspace-scaffolding stages plus the final message of
`createRepository`.  Note the `beforeWorkspace` poll: a cancellation observed
there returns without a rollback offer; and when the workspace opens
successfully the function ends without reporting the accumulated errors. -/
def cloneAndFinish (env : OrchEnv) (o : CreateRepoOptions) (effs : List Effect)
    (errs : List String) : List Effect :=
  if o.setupWorkspace then
    if env.cancel.beforeClone then effs ++ handleCancelAfterCreation env
    else
      let effs2 := effs ++ [Effect.cloneCall]
      if env.cloneOk then
        if env.cancel.beforeWorkspace then effs2
        else
          let effs3 := effs2 ++ [Effect.scaffoldCall, Effect.openFolderCall]
          if env.openOk then effs3
          else
            let errs2 := errs ++ ["Failed to open workspace"]
            effs3 ++ (if errs2.isEmpty then [Effect.infoMsg "createdWorkspaceManual"]
                      else [Effect.warnAgg errs2])
      else
        let errs2 := errs ++ ["Failed to clone repository"]
        effs2 ++ (if errs2.isEmpty then [Effect.infoMsg "created"]
                  else [Effect.warnAgg errs2])
  else
    effs ++ (if errs.isEmpty then [Effect.infoMsg "created"] else [Effect.warnAgg errs])

/-- The `issueNumber` available to the branch stage: the remote issue result
when issue creation was requested, `undefined` otherwise. -/
def effIssueNum (env : OrchEnv) (o : CreateRepoOptions) : Option Nat :=
  if o.createIssue then env.issueNumber else none

/-- The `validIssueNumber` computation of the branch stage (`n <= 0` is
rejected with an `Invalid issue number` error). -/
def validIssueNum (x : Option Nat) : Option Nat :=
  match x with
  | some n => if n > 0 then some n else none
  | none => none

/-- The branch-creation stage of `createRepository` (`if (options.createBranch)`):
the invalid-issue-number check, the poll before the branch call, branch-name
generation and validation, then the linked or unlinked branch call, and
finally `cloneAndFinish`.  `effs`/`errs` are the effects and errors
accumulated by the earlier stages. -/
def branchStage (env : OrchEnv) (o : CreateRepoOptions) (effs : List Effect)
    (errs : List String) : List Effect :=
  if o.createBranch then
    let errs3 := errs ++
      (match effIssueNum env o with
       | some n => if n > 0 then [] else ["Invalid issue number"]
       | none => [])
    if (validIssueNum (effIssueNum env o)).isSome then
      if env.cancel.beforeBranchLinked then effs ++ handleCancelAfterCreation env
      else
        let branchName :=
          generateBranchName (validIssueNum (effIssueNum env o))
            (jsOrElse o.branchName "first-release")
        if !(validateBranchName branchName).valid then
          cloneAndFinish env o effs (errs3 ++ ["Invalid branch name"])
        else
          cloneAndFinish env o (effs ++ [Effect.branchLinkedCall])
            (errs3 ++ (if env.branchLinkedOk then [] else ["Failed to create branch"]))
    else
      if env.cancel.beforeBranchUnlinked then effs ++ handleCancelAfterCreation env
      else
        let branchName := jsOrElse o.branchName "first-release"
        if !(validateBranchName branchName).valid then
          cloneAndFinish env o effs (errs3 ++ ["Invalid branch name"])
        else
          cloneAndFinish env o (effs ++ [Effect.branchCall])
            (errs3 ++ (if env.branchOk then [] else ["Failed to create branch"]))
  else
    cloneAndFinish env o effs errs

/-- The issue-creation stage of `createRepository` (`if (options.createIssue)`):
poll, issue call, error on failure, then the branch stage. -/
def issueStage (env : OrchEnv) (o : CreateRepoOptions) (effs : List Effect)
    (errs : List String) : List Effect :=
  if o.createIssue && env.cancel.beforeIssue then effs ++ handleCancelAfterCreation env
  else
    branchStage env o (effs ++ (if o.createIssue then [Effect.issueCall] else []))
      (errs ++ (if o.createIssue && (effIssueNum env o).isNone
                then ["Failed to create issue"] else []))

/-- The post-create stages of `createRepository`: settings patch, issue
creation, branch creation, then `cloneAndFinish`.  Every stage is preceded by
a cancellation poll that, once the repository exists, hands over to the
rollback coordinator. -/
def postCreate (env : OrchEnv) (o : CreateRepoOptions) : List Effect :=
  if o.settings.isSome && env.cancel.beforeSettings then handleCancelAfterCreation env
  else
    issueStage env o (if o.settings.isSome then [Effect.settingsCall] else [])
      (if o.settings.isSome then env.settingsErrors else [])

/-- The create stage: poll, run `gh repo create`, handle the cancelled /
failed / succeeded outcomes. -/
def createStage (env : OrchEnv) (o : CreateRepoOptions) : List Effect :=
  if env.cancel.beforeCreate then []
  else
    .createCall ::
      (if env.createCancelled || env.cancel.afterCreate then [.infoMsg "creationCancelled"]
       else if !env.createOk then [.errorMsg "createFailed"]
       else postCreate env o)

/-- The full `createRepository` run: dependency checks, input collection,
name validation, existence check and dialog, then the create stage. -/
def runCreateRepository (env : OrchEnv) : List Effect :=
  if env.cancel.atStart then []
  else if !env.ghInstalled then [.errorMsg "ghNotInstalled"]
  else if !env.ghAuthed then [.errorMsg "ghNotAuthenticated"]
  else if env.cancel.beforeCollect then []
  else
    match env.collectResult with
    | none => []
    | some o =>
      if env.cancel.afterCollect then []
      else if !(validateRepoName o.name).valid then [.errorMsg "invalidRepoName"]
      else if env.cancel.beforeExistsCheck then []
      else
        .checkExistsCall ::
          (if env.repoExists then
            match env.existsAction with
            | .skip => [.infoMsg "creationCancelled"]
            | .dismissed => [.infoMsg "creationCancelled"]
            | .modifyExisting => [.modifyCall]
            | .deleteRecreate =>
              .preDeleteCall ::
                (if env.deleteExistingOk then createStage env o
                 else [.errorMsg "deleteExistingFailed"])
          else createStage env o)

/-- The post-create cancellation checkpoints. -/
inductive PostSite
  | settings | issue | branchLinked | branchUnlinked | clone | workspace
deriving DecidableEq

/-- First true poll among the clone and workspace checkpoints. -/
def firstCancelFromClone (env : OrchEnv) (o : CreateRepoOptions) : Option PostSite :=
  if o.setupWorkspace && env.cancel.beforeClone then some .clone
  else if o.setupWorkspace && env.cloneOk && env.cancel.beforeWorkspace then some .workspace
  else none

/-- First true poll from the branch stage onwards. -/
def firstCancelFromBranch (env : OrchEnv) (o : CreateRepoOptions) : Option PostSite :=
  if o.createBranch && (validIssueNum (effIssueNum env o)).isSome &&
      env.cancel.beforeBranchLinked then some .branchLinked
  else if o.createBranch && !(validIssueNum (effIssueNum env o)).isSome &&
      env.cancel.beforeBranchUnlinked then some .branchUnlinked
  else firstCancelFromClone env o

def firstPostCancelSite (env : OrchEnv) (o : CreateRepoOptions) : Option PostSite :=
  if o.settings.isSome && env.cancel.beforeSettings then some .settings
  else if o.createIssue && env.cancel.beforeIssue then some .issue
  else firstCancelFromBranch env o

/-- 1 for every post-create checkpoint that triggers the rollback offer, 0 for
the workspace checkpoint (which returns without an offer) and for
cancellation-free runs. -/
def offerAt : Option PostSite → Nat
  | some .workspace => 0
  | some _ => 1
  | none => 0

/-- The conditions under which a `createRepository` run issues the `gh repo
create` call (nothing aborted earlier). -/
def reachesCreateCall (env : OrchEnv) (o : CreateRepoOptions) : Bool :=
  !env.cancel.atStart && env.ghInstalled && env.ghAuthed && !env.cancel.beforeCollect &&
  decide (env.collectResult = some o) && !env.cancel.afterCollect &&
  (validateRepoName o.name).valid && !env.cancel.beforeExistsCheck &&
  (!env.repoExists || (decide (env.existsAction = .deleteRecreate) && env.deleteExistingOk)) &&
  !env.cancel.beforeCreate

/-- The conditions under which a `createRepository` run reaches the
post-create stages (create reported success and nothing aborted earlier). -/
def reachesPostCreate (env : OrchEnv) (o : CreateRepoOptions) : Bool :=
  reachesCreateCall env o &&
  !env.createCancelled && !env.cancel.afterCreate && env.createOk

/-- Whether an effect is an aggregated warning box. -/
def isWarnAgg : Effect → Bool
  | .warnAgg _ => true
  | _ => false

/-- Whether an effect is an error box. -/
def isErrorMsg : Effect → Bool
  | .errorMsg _ => true
  | _ => false

/-- The branch name the branch stage attempts to create (issue-number prefix
when a valid issue number exists). -/
def attemptedBranchName (env : OrchEnv) (o : CreateRepoOptions) : String :=
  match validIssueNum (effIssueNum env o) with
  | some n => generateBranchName (some n) (jsOrElse o.branchName "first-release")
  | none => jsOrElse o.branchName "first-release"

/-- The branch calls issued by a cancellation-free branch stage. -/
def branchCalls (env : OrchEnv) (o : CreateRepoOptions) : List Effect :=
  if o.createBranch && (validateBranchName (attemptedBranchName env o)).valid then
    (if (validIssueNum (effIssueNum env o)).isSome then [Effect.branchLinkedCall]
     else [Effect.branchCall])
  else []

/-- The errors pushed by a cancellation-free branch stage. -/
def branchErrors (env : OrchEnv) (o : CreateRepoOptions) : List String :=
  if o.createBranch then
    (match effIssueNum env o with
     | some n => if n > 0 then [] else ["Invalid issue number"]
     | none => []) ++
    (if !(validateBranchName (attemptedBranchName env o)).valid then ["Invalid branch name"]
     else if (validIssueNum (effIssueNum env o)).isSome then
       (if env.branchLinkedOk then [] else ["Failed to create branch"])
     else
       (if env.branchOk then [] else ["Failed to create branch"]))
  else []

/-- The clone and scaffolding calls issued by a cancellation-free final
stage. -/
def cloneCalls (env : OrchEnv) (o : CreateRepoOptions) : List Effect :=
  (if o.setupWorkspace then [Effect.cloneCall] else []) ++
  (if o.setupWorkspace && env.cloneOk then [Effect.scaffoldCall, Effect.openFolderCall] else [])

/-- The error list after the clone and workspace-open failures are appended to
the errors `errs` accumulated by the earlier stages. -/
def finishErrors (env : OrchEnv) (o : CreateRepoOptions) (errs : List String) : List String :=
  (errs ++ (if o.setupWorkspace && !env.cloneOk then ["Failed to clone repository"] else [])) ++
  (if o.setupWorkspace && env.cloneOk && !env.openOk then ["Failed to open workspace"] else [])

/-- The final message of a cancellation-free run: nothing at all when the
workspace opened successfully, otherwise one aggregated warning (or, with no
errors, one success message). -/
def finalReport (env : OrchEnv) (o : CreateRepoOptions) (errs : List String) : List Effect :=
  if o.setupWorkspace && env.cloneOk && env.openOk then []
  else if (finishErrors env o errs).isEmpty then
    [Effect.infoMsg (if o.setupWorkspace && env.cloneOk then "createdWorkspaceManual"
                     else "created")]
  else [Effect.warnAgg (finishErrors env o errs)]

/-- The errors pushed by the settings, issue and branch stages of a
cancellation-free run, in push order. -/
def baseErrors (env : OrchEnv) (o : CreateRepoOptions) : List String :=
  ((if o.settings.isSome then env.settingsErrors else []) ++
   (if o.createIssue && (effIssueNum env o).isNone then ["Failed to create issue"] else [])) ++
  branchErrors env o

/-- All errors collected by a cancellation-free run, in push order: settings
errors, issue failure, invalid issue number, branch failure, clone failure,
workspace-open failure. -/
def collectedErrors (env : OrchEnv) (o : CreateRepoOptions) : List String :=
  finishErrors env o (baseErrors env o)

/-- The remote/scaffolding calls of a cancellation-free post-create run. -/
def stageCalls (env : OrchEnv) (o : CreateRepoOptions) : List Effect :=
  ((if o.settings.isSome then [Effect.settingsCall] else []) ++
   (if o.createIssue then [Effect.issueCall] else [])) ++
  branchCalls env o ++ cloneCalls env o

/-! ### Idempotence of trimming -/

theorem dropWhile_self_idem (p : Char → Bool) (l : List Char) :
    (l.dropWhile p).dropWhile p = l.dropWhile p := by
  induction l with
  | nil => rfl
  | cons a t ih =>
    by_cases h : p a = true <;> simp [List.dropWhile, h, ih]

theorem dropWhile_length_le (p : Char → Bool) (l : List Char) :
    (l.dropWhile p).length ≤ l.length := by
  induction l with
  | nil => simp
  | cons a t ih =>
    by_cases h : p a = true
    · simp only [List.dropWhile_cons, h, if_true, List.length_cons]
      exact Nat.le_trans ih (Nat.le_succ _)
    · simp [List.dropWhile_cons, h]

theorem dropWhile_fixed_of_cons (p : Char → Bool) (a : Char) (t : List Char)
    (h : (a :: t).dropWhile p = a :: t) : p a = false := by
  by_cases hpa : p a = true
  · exfalso
    rw [List.dropWhile_cons_of_pos hpa] at h
    have hle := dropWhile_length_le p t
    rw [h] at hle
    simp at hle
  · simpa using hpa

theorem dropWhile_suffix_exists (p : Char → Bool) (l : List Char) :
    ∃ u, u ++ l.dropWhile p = l := by
  induction l with
  | nil => exact ⟨[], rfl⟩
  | cons a t ih =>
    by_cases h : p a = true
    · obtain ⟨u, hu⟩ := ih
      exact ⟨a :: u, by simp [List.dropWhile_cons_of_pos h, hu]⟩
    · exact ⟨[], by simp [List.dropWhile_cons_of_neg h]⟩

/-- If a list has no leading whitespace, trimming its tail leaves no leading
whitespace either. -/
theorem trimLeadL_trimTrailL (l : List Char) (h : trimLeadL l = l) :
    trimLeadL (trimTrailL l) = trimTrailL l := by
  obtain ⟨u, hu⟩ := dropWhile_suffix_exists isJsSpace l.reverse
  -- `trimTrailL l` is a prefix of `l`.
  have hpre : trimTrailL l ++ u.reverse = l := by
    have := congrArg List.reverse hu
    simpa [trimTrailL] using this
  cases hm : trimTrailL l with
  | nil => simp [trimLeadL]
  | cons a t =>
    -- `l` begins with `a`, and `l` has no leading whitespace, so `p a = false`.
    rw [hm] at hpre
    have hl : l = a :: (t ++ u.reverse) := by simpa using hpre.symm
    have hfix : (a :: (t ++ u.reverse)).dropWhile isJsSpace = a :: (t ++ u.reverse) := by
      rw [← hl]; exact h
    have ha := dropWhile_fixed_of_cons isJsSpace _ _ hfix
    have hneg : ¬ isJsSpace a = true := by simp [ha]
    simp [trimLeadL, List.dropWhile_cons_of_neg hneg]

theorem trimTrailL_idem (l : List Char) : trimTrailL (trimTrailL l) = trimTrailL l := by
  simp [trimTrailL, dropWhile_self_idem]

theorem jsTrim_idem (l : List Char) : jsTrim (jsTrim l) = jsTrim l := by
  have hA : trimLeadL (trimLeadL l) = trimLeadL l := dropWhile_self_idem _ _
  have h1 : trimLeadL (jsTrim l) = jsTrim l := trimLeadL_trimTrailL _ hA
  show trimTrailL (trimLeadL (jsTrim l)) = jsTrim l
  rw [h1]
  show trimTrailL (trimTrailL (trimLeadL l)) = jsTrim l
  rw [trimTrailL_idem]
  rfl

/-! ## Claim theorems: validation utilities -/

/-! ## Rollback-offer accounting -/

theorem handleCancel_count (env : OrchEnv) :
    (handleCancelAfterCreation env).count Effect.rollbackOffer = 1 ∧
    (handleCancelAfterCreation env).count Effect.rollbackDeleteCall =
      (if env.rollbackAction = .delete then 1 else 0) := by
  rcases h : env.rollbackAction
  all_goals
    simp only [handleCancelAfterCreation, h]
    split_ifs <;> simp_all [List.count_cons, List.count_nil]

theorem cloneAndFinish_rollback_count (env : OrchEnv) (o : CreateRepoOptions)
    (effs : List Effect) (errs : List String) :
    (cloneAndFinish env o effs errs).count Effect.rollbackOffer =
      effs.count Effect.rollbackOffer +
      (if o.setupWorkspace && env.cancel.beforeClone then 1 else 0) ∧
    (cloneAndFinish env o effs errs).count Effect.rollbackDeleteCall =
      effs.count Effect.rollbackDeleteCall +
      (if o.setupWorkspace && env.cancel.beforeClone then
        (if env.rollbackAction = .delete then 1 else 0) else 0) := by
  simp only [cloneAndFinish]
  split_ifs <;>
    simp_all [List.count_append, List.count_cons, (handleCancel_count env).1,
      (handleCancel_count env).2]

theorem handleCancel_offer_count (env : OrchEnv) :
    (handleCancelAfterCreation env).count Effect.rollbackOffer = 1 :=
  (handleCancel_count env).1

theorem handleCancel_delete_count (env : OrchEnv) :
    (handleCancelAfterCreation env).count Effect.rollbackDeleteCall =
      (if env.rollbackAction = .delete then 1 else 0) :=
  (handleCancel_count env).2

theorem cloneAndFinish_offer_count (env : OrchEnv) (o : CreateRepoOptions)
    (effs : List Effect) (errs : List String) :
    (cloneAndFinish env o effs errs).count Effect.rollbackOffer =
      effs.count Effect.rollbackOffer +
      (if o.setupWorkspace && env.cancel.beforeClone then 1 else 0) :=
  (cloneAndFinish_rollback_count env o effs errs).1

theorem cloneAndFinish_delete_count (env : OrchEnv) (o : CreateRepoOptions)
    (effs : List Effect) (errs : List String) :
    (cloneAndFinish env o effs errs).count Effect.rollbackDeleteCall =
      effs.count Effect.rollbackDeleteCall +
      (if o.setupWorkspace && env.cancel.beforeClone then
        (if env.rollbackAction = .delete then 1 else 0) else 0) :=
  (cloneAndFinish_rollback_count env o effs errs).2

theorem cloneAndFinish_offer_count' (env : OrchEnv) (o : CreateRepoOptions)
    (effs : List Effect) (errs : List String) :
    (cloneAndFinish env o effs errs).count Effect.rollbackOffer =
      effs.count Effect.rollbackOffer + offerAt (firstCancelFromClone env o) := by
  rw [cloneAndFinish_offer_count]
  unfold firstCancelFromClone
  split_ifs <;> simp_all [offerAt]

theorem branchStage_offer_count (env : OrchEnv) (o : CreateRepoOptions)
    (effs : List Effect) (errs : List String) :
    (branchStage env o effs errs).count Effect.rollbackOffer =
      effs.count Effect.rollbackOffer + offerAt (firstCancelFromBranch env o) := by
  simp only [branchStage, firstCancelFromBranch]
  split_ifs <;>
    simp_all [cloneAndFinish_offer_count', handleCancel_offer_count,
      List.count_append, offerAt]

theorem issueStage_offer_count (env : OrchEnv) (o : CreateRepoOptions)
    (effs : List Effect) (errs : List String) :
    (issueStage env o effs errs).count Effect.rollbackOffer =
      effs.count Effect.rollbackOffer +
        offerAt (if o.createIssue && env.cancel.beforeIssue then some .issue
                 else firstCancelFromBranch env o) := by
  unfold issueStage
  split_ifs <;>
    simp_all [branchStage_offer_count, handleCancel_offer_count,
      List.count_append, offerAt, List.count_cons, List.count_nil]

theorem postCreate_offer_count (env : OrchEnv) (o : CreateRepoOptions) :
    (postCreate env o).count Effect.rollbackOffer =
      offerAt (firstPostCancelSite env o) := by
  unfold postCreate firstPostCancelSite
  split_ifs <;>
    simp_all [issueStage_offer_count, handleCancel_offer_count,
      List.count_cons, List.count_nil, offerAt] <;>
    split_ifs <;>
    simp_all

theorem cloneAndFinish_delete_count' (env : OrchEnv) (o : CreateRepoOptions)
    (effs : List Effect) (errs : List String) :
    (cloneAndFinish env o effs errs).count Effect.rollbackDeleteCall =
      effs.count Effect.rollbackDeleteCall +
        (if env.rollbackAction = .delete then offerAt (firstCancelFromClone env o) else 0) := by
  rw [cloneAndFinish_delete_count]
  unfold firstCancelFromClone
  split_ifs <;> simp_all [offerAt]

theorem branchStage_delete_count (env : OrchEnv) (o : CreateRepoOptions)
    (effs : List Effect) (errs : List String) :
    (branchStage env o effs errs).count Effect.rollbackDeleteCall =
      effs.count Effect.rollbackDeleteCall +
        (if env.rollbackAction = .delete then offerAt (firstCancelFromBranch env o) else 0) := by
  simp only [branchStage, firstCancelFromBranch]
  split_ifs <;>
    simp_all [cloneAndFinish_delete_count', handleCancel_delete_count,
      List.count_append, offerAt]

theorem issueStage_delete_count (env : OrchEnv) (o : CreateRepoOptions)
    (effs : List Effect) (errs : List String) :
    (issueStage env o effs errs).count Effect.rollbackDeleteCall =
      effs.count Effect.rollbackDeleteCall +
        (if env.rollbackAction = .delete then
          offerAt (if o.createIssue && env.cancel.beforeIssue then some .issue
                   else firstCancelFromBranch env o) else 0) := by
  unfold issueStage
  split_ifs <;>
    simp_all [branchStage_delete_count, handleCancel_delete_count,
      List.count_append, offerAt, List.count_cons, List.count_nil]

theorem postCreate_delete_count (env : OrchEnv) (o : CreateRepoOptions) :
    (postCreate env o).count Effect.rollbackDeleteCall =
      (if env.rollbackAction = .delete then offerAt (firstPostCancelSite env o) else 0) := by
  unfold postCreate firstPostCancelSite
  split_ifs <;>
    simp_all [issueStage_delete_count, handleCancel_delete_count,
      List.count_cons, List.count_nil, offerAt] <;>
    split_ifs <;>
    simp_all

/-! ### Run-level rollback accounting -/

theorem run_decompose (env : OrchEnv) (o : CreateRepoOptions)
    (h : reachesPostCreate env o = true) :
    runCreateRepository env =
      Effect.checkExistsCall ::
        ((if env.repoExists then [Effect.preDeleteCall] else []) ++
          Effect.createCall :: postCreate env o) := by
  simp only [reachesPostCreate, Bool.and_eq_true] at h
  obtain ⟨⟨⟨hcc, h11⟩, h12⟩, h13⟩ := h
  simp only [reachesCreateCall, Bool.and_eq_true] at hcc
  obtain ⟨⟨⟨⟨⟨⟨⟨⟨⟨h1, h2⟩, h3⟩, h4⟩, h5⟩, h6⟩, h7⟩, h8⟩, h9⟩, h10⟩ := hcc
  rw [Bool.not_eq_true'] at h1 h4 h6 h8 h10 h11 h12
  rw [decide_eq_true_eq] at h5
  rw [Bool.or_eq_true, Bool.not_eq_true', Bool.and_eq_true, decide_eq_true_eq] at h9
  unfold runCreateRepository createStage
  rcases h9 with h9 | ⟨h9a, h9b⟩
  · simp [h1, h2, h3, h4, h5, h6, h7, h8, h9, h10, h11, h12, h13]
  · by_cases hre : env.repoExists = true
    · simp [h1, h2, h3, h4, h5, h6, h7, h8, h9a, h9b, h10, h11, h12, h13, hre]
    · simp_all [h1, h2, h3, h4, h5, h6, h7, h8, h10, h11, h12, h13]

theorem run_offer_count (env : OrchEnv) (o : CreateRepoOptions)
    (h : reachesPostCreate env o = true) :
    (runCreateRepository env).count Effect.rollbackOffer =
      offerAt (firstPostCancelSite env o) ∧
    (runCreateRepository env).count Effect.rollbackDeleteCall =
      (if env.rollbackAction = .delete then offerAt (firstPostCancelSite env o) else 0) := by
  rw [run_decompose env o h]
  constructor
  · simp [List.count_cons, List.count_append, postCreate_offer_count]
    split_ifs <;> simp [List.count_cons, List.count_nil]
  · simp [List.count_cons, List.count_append, postCreate_delete_count]
    split_ifs <;> simp [List.count_cons, List.count_nil]

theorem offerAt_le_one (s : Option PostSite) : offerAt s ≤ 1 := by
  rcases s with _ | s
  · simp [offerAt]
  · cases s <;> simp [offerAt]

/-- Every run either reaches the create stage (with a fixed two-effect
prefix) or ends early on a list free of rollback effects. -/
theorem run_cases (env : OrchEnv) :
    (∃ o, env.collectResult = some o ∧
      runCreateRepository env =
        Effect.checkExistsCall ::
          ((if env.repoExists then [Effect.preDeleteCall] else []) ++ createStage env o)) ∨
    ((runCreateRepository env).count Effect.rollbackOffer = 0 ∧
     (runCreateRepository env).count Effect.rollbackDeleteCall = 0 ∧
     Effect.rollbackOffer ∉ runCreateRepository env) := by
  unfold runCreateRepository
  cases hc : env.collectResult with
  | none =>
    right
    dsimp only
    split_ifs <;> simp
  | some o =>
    dsimp only
    cases e1 : env.cancel.atStart
    · cases e2 : env.ghInstalled
      · right; simp [e1, e2]
      · cases e3 : env.ghAuthed
        · right; simp [e1, e2, e3]
        · cases e4 : env.cancel.beforeCollect
          · cases e5 : env.cancel.afterCollect
            · cases e6 : (validateRepoName o.name).valid
              · right; simp [e1, e2, e3, e4, e5, e6]
              · cases e7 : env.cancel.beforeExistsCheck
                · cases e8 : env.repoExists
                  · left
                    exact ⟨o, rfl, by simp [e1, e2, e3, e4, e5, e6, e7, e8]⟩
                  · rcases hex : env.existsAction
                    · right; simp [e1, e2, e3, e4, e5, e6, e7, e8, hex]
                    · cases e9 : env.deleteExistingOk
                      · right; simp [e1, e2, e3, e4, e5, e6, e7, e8, hex, e9]
                      · left
                        exact ⟨o, rfl, by
                          simp [e1, e2, e3, e4, e5, e6, e7, e8, hex, e9]⟩
                    · right; simp [e1, e2, e3, e4, e5, e6, e7, e8, hex]
                    · right; simp [e1, e2, e3, e4, e5, e6, e7, e8, hex]
                · right; simp [e1, e2, e3, e4, e5, e6, e7]
            · right; simp [e1, e2, e3, e4, e5]
          · right; simp [e1, e2, e3, e4]
    · right; simp [e1]

theorem createStage_bound (env : OrchEnv) (o : CreateRepoOptions) :
    (createStage env o).count Effect.rollbackOffer ≤ 1 ∧
    (createStage env o).count Effect.rollbackDeleteCall =
      (if env.rollbackAction = .delete
       then (createStage env o).count Effect.rollbackOffer else 0) ∧
    (Effect.rollbackOffer ∈ createStage env o →
      env.createOk = true ∧ Effect.createCall ∈ createStage env o) := by
  unfold createStage
  split_ifs <;>
    simp_all [postCreate_offer_count, postCreate_delete_count, offerAt_le_one,
      List.count_cons, List.count_nil, List.mem_cons]

/-- At most one rollback offer per run, the delete executor runs exactly as
many times as an offer was answered with `delete`, and any offer implies the
create call succeeded. -/
theorem run_offer_bound (env : OrchEnv) :
    (runCreateRepository env).count Effect.rollbackOffer ≤ 1 ∧
    (runCreateRepository env).count Effect.rollbackDeleteCall =
      (if env.rollbackAction = .delete
       then (runCreateRepository env).count Effect.rollbackOffer else 0) ∧
    (Effect.rollbackOffer ∈ runCreateRepository env →
      env.createOk = true ∧ Effect.createCall ∈ runCreateRepository env) := by
  rcases run_cases env with ⟨o, _, heq⟩ | ⟨hz1, hz2, hz3⟩
  · obtain ⟨hb1, hb2, hb3⟩ := createStage_bound env o
    rw [heq]
    refine ⟨?_, ?_, ?_⟩
    · simp only [List.count_cons, List.count_append]
      split_ifs <;> simp_all [List.count_cons, List.count_nil]
    · simp only [List.count_cons, List.count_append]
      split_ifs <;> simp_all [List.count_cons, List.count_nil]
    · intro hmem
      have hmem2 : Effect.rollbackOffer ∈ createStage env o := by
        rcases List.mem_cons.mp hmem with h | h
        · exact absurd h (by simp)
        · rcases List.mem_append.mp h with h | h
          · split_ifs at h <;> simp_all
          · exact h
      obtain ⟨hok, hcall⟩ := hb3 hmem2
      refine ⟨hok, ?_⟩
      exact List.mem_cons_of_mem _ (List.mem_append_right _ hcall)
  · refine ⟨?_, ?_, ?_⟩
    · omega
    · rw [hz2, hz1]
      split_ifs <;> rfl
    · intro hmem
      exact absurd hmem hz3

/-! ### Cancellation-free decomposition of the post-create stages -/

theorem cloneAndFinish_no_cancel (env : OrchEnv) (o : CreateRepoOptions)
    (effs : List Effect) (errs : List String)
    (hnc : firstCancelFromClone env o = none) :
    cloneAndFinish env o effs errs =
      effs ++ cloneCalls env o ++ finalReport env o errs := by
  simp only [firstCancelFromClone] at hnc
  split_ifs at hnc with g5 g6
  simp only [cloneAndFinish, cloneCalls, finalReport, finishErrors]
  split_ifs <;> simp_all [List.append_assoc]

theorem branchStage_no_cancel (env : OrchEnv) (o : CreateRepoOptions)
    (effs : List Effect) (errs : List String)
    (hnc : firstCancelFromBranch env o = none) :
    branchStage env o effs errs =
      effs ++ branchCalls env o ++ cloneCalls env o ++
        finalReport env o (errs ++ branchErrors env o) := by
  have hclone : firstCancelFromClone env o = none := by
    simp only [firstCancelFromBranch] at hnc
    split_ifs at hnc
    exact hnc
  have hg : ¬(o.createBranch && (validIssueNum (effIssueNum env o)).isSome &&
        env.cancel.beforeBranchLinked) = true ∧
      ¬(o.createBranch && !(validIssueNum (effIssueNum env o)).isSome &&
        env.cancel.beforeBranchUnlinked) = true := by
    simp only [firstCancelFromBranch] at hnc
    split_ifs at hnc with g3 g4
    exact ⟨g3, g4⟩
  obtain ⟨g3, g4⟩ := hg
  by_cases hvs : (validIssueNum (effIssueNum env o)).isSome = true
  · obtain ⟨n, hn⟩ := Option.isSome_iff_exists.mp hvs
    simp only [branchStage, branchCalls, branchErrors, attemptedBranchName, hn]
    split_ifs <;>
      simp_all [cloneAndFinish_no_cancel env o _ _ hclone, List.append_assoc]
  · have hn : validIssueNum (effIssueNum env o) = none := by
      cases h : validIssueNum (effIssueNum env o)
      · rfl
      · rw [h] at hvs
        simp at hvs
    simp only [branchStage, branchCalls, branchErrors, attemptedBranchName, hn]
    split_ifs <;>
      simp_all [cloneAndFinish_no_cancel env o _ _ hclone, List.append_assoc]

theorem issueStage_no_cancel (env : OrchEnv) (o : CreateRepoOptions)
    (effs : List Effect) (errs : List String)
    (hni : ¬(o.createIssue && env.cancel.beforeIssue) = true)
    (hnb : firstCancelFromBranch env o = none) :
    issueStage env o effs errs =
      (effs ++ (if o.createIssue then [Effect.issueCall] else [])) ++
        branchCalls env o ++ cloneCalls env o ++
        finalReport env o
          ((errs ++ (if o.createIssue && (effIssueNum env o).isNone
                     then ["Failed to create issue"] else [])) ++ branchErrors env o) := by
  simp only [issueStage, hni, if_false]
  rw [branchStage_no_cancel env o _ _ hnb]
  simp [List.append_assoc]

theorem postCreate_no_cancel (env : OrchEnv) (o : CreateRepoOptions)
    (hnc : firstPostCancelSite env o = none) :
    postCreate env o = stageCalls env o ++ finalReport env o (baseErrors env o) := by
  have hg : ¬(o.settings.isSome && env.cancel.beforeSettings) = true ∧
      ¬(o.createIssue && env.cancel.beforeIssue) = true ∧
      firstCancelFromBranch env o = none := by
    simp only [firstPostCancelSite] at hnc
    split_ifs at hnc with g1 g2
    exact ⟨g1, g2, hnc⟩
  obtain ⟨g1, g2, g3⟩ := hg
  simp only [postCreate, g1, if_false]
  rw [issueStage_no_cancel env o _ _ g2 g3]
  simp [stageCalls, baseErrors, List.append_assoc]

theorem run_decompose_create (env : OrchEnv) (o : CreateRepoOptions)
    (hcc : reachesCreateCall env o = true) :
    runCreateRepository env =
      Effect.checkExistsCall ::
        ((if env.repoExists then [Effect.preDeleteCall] else []) ++ createStage env o) := by
  simp only [reachesCreateCall, Bool.and_eq_true] at hcc
  obtain ⟨⟨⟨⟨⟨⟨⟨⟨⟨h1, h2⟩, h3⟩, h4⟩, h5⟩, h6⟩, h7⟩, h8⟩, h9⟩, h10⟩ := hcc
  rw [Bool.not_eq_true'] at h1 h4 h6 h8 h10
  rw [decide_eq_true_eq] at h5
  rw [Bool.or_eq_true, Bool.not_eq_true', Bool.and_eq_true, decide_eq_true_eq] at h9
  unfold runCreateRepository
  rcases h9 with h9 | ⟨h9a, h9b⟩
  · simp [h1, h2, h3, h4, h5, h6, h7, h8, h9, h10]
  · by_cases hre : env.repoExists = true
    · simp [h1, h2, h3, h4, h5, h6, h7, h8, h9a, h9b, h10, hre]
    · simp_all

theorem createStage_failure (env : OrchEnv) (o : CreateRepoOptions)
    (hp : env.cancel.beforeCreate = false) (hc1 : env.createCancelled = false)
    (hc2 : env.cancel.afterCreate = false) (hc3 : env.createOk = false) :
    createStage env o = [Effect.createCall, Effect.errorMsg "createFailed"] := by
  simp [createStage, hp, hc1, hc2, hc3]

theorem mem_ite_nil {α : Type} (e : α) (c : Prop) [Decidable c] (l : List α) :
    e ∈ (if c then l else []) ↔ c ∧ e ∈ l := by
  split <;> simp_all

theorem mem_ite_lists {α : Type} (e : α) (c : Prop) [Decidable c] (l1 l2 : List α) :
    e ∈ (if c then l1 else l2) ↔ ((c ∧ e ∈ l1) ∨ (¬c ∧ e ∈ l2)) := by
  split <;> simp_all

theorem warnAgg_not_mem_stageCalls (env : OrchEnv) (o : CreateRepoOptions)
    (errs : List String) : Effect.warnAgg errs ∉ stageCalls env o := by
  unfold stageCalls branchCalls cloneCalls
  split_ifs <;> simp

theorem stageCalls_warnAgg_countP (env : OrchEnv) (o : CreateRepoOptions) :
    (stageCalls env o).countP (fun e => isWarnAgg e) = 0 := by
  unfold stageCalls branchCalls cloneCalls
  split_ifs <;> simp [isWarnAgg]

theorem finalReport_warnAgg_countP (env : OrchEnv) (o : CreateRepoOptions)
    (errs : List String) :
    (finalReport env o errs).countP (fun e => isWarnAgg e) ≤ 1 := by
  unfold finalReport
  split_ifs <;> simp [isWarnAgg]

/-! ## Claim theorems: error handling -/

/-- **C7 counterexample.**  A run whose settings patch fails (one error is
collected) but whose workspace setup was requested, clone succeeded and
workspace opened successfully ends silently: the collected error is never
reported in any aggregated warning, contradicting the claim that all
collected errors are reported. -/
theorem error_aggregation_cex :
    runCreateRepository
      { collectResult := some { name := "repo", description := "", visibility := "private",
                                owner := "me", setupWorkspace := true, settings := some {} },
        settingsErrors := ["boom"] } =
      [.checkExistsCall, .createCall, .settingsCall, .cloneCall, .scaffoldCall,
       .openFolderCall] ∧
    collectedErrors
      { collectResult := some { name := "repo", description := "", visibility := "private",
                                owner := "me", setupWorkspace := true, settings := some {} },
        settingsErrors := ["boom"] }
      { name := "repo", description := "", visibility := "private",
        owner := "me", setupWorkspace := true, settings := some {} } = ["boom"] ∧
    (runCreateRepository
      { collectResult := some { name := "repo", description := "", visibility := "private",
                                owner := "me", setupWorkspace := true, settings := some {} },
        settingsErrors := ["boom"] }).all (fun e => !isWarnAgg e) = true := by
  refine ⟨?_, ?_, ?_⟩ <;> decide

/-- **C7 (amended).**  A failure of the create stage is fatal: the run ends
with the create call followed by a single error message and no later stage
runs.  After a successful create, a cancellation-free run issues the stage
calls and ends with at most one message; every requested stage is attempted
regardless of earlier remote-call failures (the settings patch when settings
were configured, the issue call when requested, the clone when workspace
setup was requested, and a branch call when requested and the attempted
branch name validates); the collected errors are reported in one aggregated
warning — except when workspace setup was requested, the clone succeeded and
the workspace opened, in which case nothing is reported at all; at most one
aggregated warning is ever shown. -/
theorem orchestration_error_policy :
    (∀ (env : OrchEnv) (o : CreateRepoOptions),
      reachesCreateCall env o = true → env.createCancelled = false →
      env.cancel.afterCreate = false → env.createOk = false →
      runCreateRepository env =
        Effect.checkExistsCall ::
          ((if env.repoExists then [Effect.preDeleteCall] else []) ++
            [Effect.createCall, Effect.errorMsg "createFailed"])) ∧
    (∀ (env : OrchEnv) (o : CreateRepoOptions),
      reachesPostCreate env o = true → firstPostCancelSite env o = none →
      runCreateRepository env =
        Effect.checkExistsCall ::
          ((if env.repoExists then [Effect.preDeleteCall] else []) ++
            Effect.createCall ::
              (stageCalls env o ++ finalReport env o (baseErrors env o)))) ∧
    (∀ (env : OrchEnv) (o : CreateRepoOptions), firstPostCancelSite env o = none →
      ((Effect.settingsCall ∈ postCreate env o) ↔ o.settings.isSome = true) ∧
      ((Effect.issueCall ∈ postCreate env o) ↔ o.createIssue = true) ∧
      ((Effect.cloneCall ∈ postCreate env o) ↔ o.setupWorkspace = true) ∧
      ((Effect.branchLinkedCall ∈ postCreate env o ∨ Effect.branchCall ∈ postCreate env o) ↔
        (o.createBranch = true ∧
         (validateBranchName (attemptedBranchName env o)).valid = true))) ∧
    (∀ (env : OrchEnv) (o : CreateRepoOptions), firstPostCancelSite env o = none →
      (¬(o.setupWorkspace = true ∧ env.cloneOk = true ∧ env.openOk = true) →
        ((Effect.warnAgg (collectedErrors env o) ∈ postCreate env o) ↔
          collectedErrors env o ≠ [])) ∧
      ((o.setupWorkspace = true ∧ env.cloneOk = true ∧ env.openOk = true) →
        ∀ errs, Effect.warnAgg errs ∉ postCreate env o) ∧
      (postCreate env o).countP (fun e => isWarnAgg e) ≤ 1) := by
  refine ⟨?_, ?_, ?_, ?_⟩
  · intro env o hcc hc1 hc2 hc3
    have hp : env.cancel.beforeCreate = false := by
      have h := hcc
      simp only [reachesCreateCall, Bool.and_eq_true] at h
      simpa using h.2
    rw [run_decompose_create env o hcc, createStage_failure env o hp hc1 hc2 hc3]
  · intro env o hr hnc
    rw [run_decompose env o hr, postCreate_no_cancel env o hnc]
  · intro env o hnc
    rw [postCreate_no_cancel env o hnc]
    have hfr : ∀ e : Effect, e ∈ finalReport env o (baseErrors env o) →
        (∃ s, e = Effect.infoMsg s) ∨ (∃ l, e = Effect.warnAgg l) := by
      intro e he
      unfold finalReport at he
      split_ifs at he <;> simp_all
    have hnotin : ∀ e : Effect, (∀ s, e ≠ .infoMsg s) → (∀ l, e ≠ .warnAgg l) →
        e ∉ finalReport env o (baseErrors env o) := by
      intro e hi hw he
      rcases hfr e he with ⟨s, hs⟩ | ⟨l, hl⟩
      · exact hi s hs
      · exact hw l hl
    have h1 := hnotin .settingsCall (by simp) (by simp)
    have h2 := hnotin .issueCall (by simp) (by simp)
    have h3 := hnotin .cloneCall (by simp) (by simp)
    have h4 := hnotin .branchLinkedCall (by simp) (by simp)
    have h5 := hnotin .branchCall (by simp) (by simp)
    refine ⟨?_, ?_, ?_, ?_⟩
    · simp [stageCalls, branchCalls, cloneCalls, mem_ite_nil, mem_ite_lists, h1]
    · simp [stageCalls, branchCalls, cloneCalls, mem_ite_nil, mem_ite_lists, h2]
    · simp [stageCalls, branchCalls, cloneCalls, mem_ite_nil, mem_ite_lists, h3]
    · by_cases his : (validIssueNum (effIssueNum env o)).isSome = true <;>
        simp [stageCalls, branchCalls, cloneCalls, mem_ite_nil, mem_ite_lists,
          h4, h5, his]
  · intro env o hnc
    rw [postCreate_no_cancel env o hnc]
    refine ⟨?_, ?_, ?_⟩
    · intro hns
      unfold collectedErrors finalReport
      simp only [List.mem_append]
      constructor
      · intro h
        rcases h with h | h
        · exact absurd h (warnAgg_not_mem_stageCalls env o _)
        · split_ifs at h <;> simp_all [List.isEmpty_iff]
      · intro h
        right
        have hne : (finishErrors env o (baseErrors env o)).isEmpty = false := by
          cases hE : finishErrors env o (baseErrors env o) with
          | nil => exact absurd hE h
          | cons a t => rfl
        have hsb : (o.setupWorkspace && env.cloneOk && env.openOk) = false := by
          rcases hx : o.setupWorkspace <;> rcases hy : env.cloneOk <;>
            rcases hz : env.openOk <;> simp_all
        simp [hsb, hne]
    · intro hs errs
      simp only [List.mem_append, not_or]
      refine ⟨warnAgg_not_mem_stageCalls env o _, ?_⟩
      unfold finalReport
      rw [if_pos (by simp [hs.1, hs.2.1, hs.2.2])]
      simp
    · rw [List.countP_append]
      rw [stageCalls_warnAgg_countP]
      have := finalReport_warnAgg_countP env o (baseErrors env o)
      omega

/-- Witness for `orchestration_error_policy`. -/
theorem orchestration_error_policy_witness :
    runCreateRepository
      { collectResult := some { name := "repo", description := "", visibility := "private",
                                owner := "me" },
        createOk := false } =
      Effect.checkExistsCall ::
        ((if (false : Bool) then [Effect.preDeleteCall] else []) ++
          [Effect.createCall, Effect.errorMsg "createFailed"]) ∧
    Effect.settingsCall ∈ postCreate
      { collectResult := some { name := "repo", description := "", visibility := "private",
                                owner := "me", settings := some {} } }
      { name := "repo", description := "", visibility := "private", owner := "me",
        settings := some {} } := by
  constructor
  · exact orchestration_error_policy.1
      { collectResult := some { name := "repo", description := "", visibility := "private",
                                owner := "me" },
        createOk := false }
      { name := "repo", description := "", visibility := "private", owner := "me" }
      (by decide) rfl rfl rfl
  · exact (orchestration_error_policy.2.2.1
      { collectResult := some { name := "repo", description := "", visibility := "private",
                                owner := "me", settings := some {} } }
      { name := "repo", description := "", visibility := "private", owner := "me",
        settings := some {} }
      (by decide)).1.mpr rfl

/-! ## Claim theorems: rollback offers -/

/-- **C1 counterexample.**  Run the creation command with workspace setup
requested and the cancellation token turning true exactly at the
workspace-scaffolding poll (after the create call succeeded and the clone
succeeded).  Cancellation is observed after `markCreated`, yet the run ends
with no rollback offer at all: the trace is just the existence check, the
create call and the clone call. -/
theorem rollback_offer_cex :
    runCreateRepository
      { collectResult := some { name := "repo", description := "", visibility := "private",
                                owner := "me", setupWorkspace := true },
        cancel := { beforeWorkspace := true } } =
      [.checkExistsCall, .createCall, .cloneCall] ∧
    reachesPostCreate
      { collectResult := some { name := "repo", description := "", visibility := "private",
                                owner := "me", setupWorkspace := true },
        cancel := { beforeWorkspace := true } }
      { name := "repo", description := "", visibility := "private",
        owner := "me", setupWorkspace := true } = true ∧
    firstPostCancelSite
      { collectResult := some { name := "repo", description := "", visibility := "private",
                                owner := "me", setupWorkspace := true },
        cancel := { beforeWorkspace := true } }
      { name := "repo", description := "", visibility := "private",
        owner := "me", setupWorkspace := true } = some .workspace ∧
    Effect.rollbackOffer ∉ runCreateRepository
      { collectResult := some { name := "repo", description := "", visibility := "private",
                                owner := "me", setupWorkspace := true },
        cancel := { beforeWorkspace := true } } := by
  refine ⟨?_, ?_, ?_, ?_⟩ <;> decide

/-- **C1 (amended).**  Per run there is at most one rollback offer; any offer
happens in a run whose create call was issued and reported success
(cancellation observed before that never triggers an offer); the delete
executor is invoked exactly when an offer is made and answered with
`Delete Repository`; and once the create call has succeeded the number of
offers is `offerAt` of the first cancellation checkpoint observed: exactly one
at the settings, issue, branch and clone checkpoints, but zero at the final
workspace-scaffolding checkpoint (and zero when no cancellation is
observed). -/
theorem rollback_offer_policy :
    (∀ env : OrchEnv, (runCreateRepository env).count Effect.rollbackOffer ≤ 1) ∧
    (∀ env : OrchEnv, Effect.rollbackOffer ∈ runCreateRepository env →
      env.createOk = true ∧ Effect.createCall ∈ runCreateRepository env) ∧
    (∀ env : OrchEnv, (runCreateRepository env).count Effect.rollbackDeleteCall =
      (if env.rollbackAction = .delete
       then (runCreateRepository env).count Effect.rollbackOffer else 0)) ∧
    (∀ (env : OrchEnv) (o : CreateRepoOptions), reachesPostCreate env o = true →
      (runCreateRepository env).count Effect.rollbackOffer =
        offerAt (firstPostCancelSite env o)) := by
  exact ⟨fun env => (run_offer_bound env).1,
    fun env => (run_offer_bound env).2.2,
    fun env => (run_offer_bound env).2.1,
    fun env o h => (run_offer_count env o h).1⟩

/-- Witness for `rollback_offer_policy`: with cancellation observed at the
settings checkpoint of a run whose options carry a settings record, exactly
one rollback offer is made. -/
theorem rollback_offer_policy_witness :
    reachesPostCreate
      { collectResult := some { name := "repo", description := "", visibility := "private",
                                owner := "me", settings := some {} },
        cancel := { beforeSettings := true }, rollbackAction := .delete }
      { name := "repo", description := "", visibility := "private",
        owner := "me", settings := some {} } = true ∧
    (runCreateRepository
      { collectResult := some { name := "repo", description := "", visibility := "private",
                                owner := "me", settings := some {} },
        cancel := { beforeSettings := true }, rollbackAction := .delete }).count
      Effect.rollbackOffer =
      offerAt (firstPostCancelSite
        { collectResult := some { name := "repo", description := "", visibility := "private",
                                  owner := "me", settings := some {} },
          cancel := { beforeSettings := true }, rollbackAction := .delete }
        { name := "repo", description := "", visibility := "private",
          owner := "me", settings := some {} }) :=
  ⟨by decide,
   rollback_offer_policy.2.2.2
     { collectResult := some { name := "repo", description := "", visibility := "private",
                               owner := "me", settings := some {} },
       cancel := { beforeSettings := true }, rollbackAction := .delete }
     { name := "repo", description := "", visibility := "private",
       owner := "me", settings := some {} }
     (by decide)⟩

/-! ## Claim theorems: step sequences and navigation -/

/-- **C8.** For every wizard state of either flow, the computed step sequence
contains the terminal step `DONE` exactly once and contains no step identifier
more than once. -/
theorem step_sequences_wellformed :
    (∀ st : CState,
      (getStepSequenceC st).count CStep.done = 1 ∧ (getStepSequenceC st).Nodup) ∧
    (∀ cat : Option String,
      (getStepSequenceM cat).count MStep.done = 1 ∧ (getStepSequenceM cat).Nodup) := by
  constructor
  · intro st
    unfold getStepSequenceC
    constructor
    · split <;> decide
    · split <;> decide
  · intro cat
    unfold getStepSequenceM
    constructor
    · split
      · decide
      · split_ifs <;> decide
    · split
      · decide
      · split_ifs <;> decide

/-- **C6 counterexample.** With a truthy template, `readme` is absent from the
creation-flow sequence; the code's `getNextStep` then returns the terminal
step `done` rather than the still-valid follower `issue`, and
`moveToPreviousStep` leaves the invalid step unchanged rather than rewinding
to the still-valid `visibility`. -/
theorem navigation_on_absent_step_cex :
    (CStep.readme ∉ getStepSequenceC { template := some "t" }) ∧
    getNextStepC { template := some "t" } .readme = .done ∧
    CStep.done ≠ CStep.issue ∧
    prevStepC { template := some "t" } .readme = .readme ∧
    CStep.readme ≠ CStep.visibility := by
  refine ⟨?_, ?_, ?_, ?_, ?_⟩ <;> decide

/-- **C6 (amended).** If the current step is absent from the freshly computed
sequence, a forward request returns the terminal step (not the follower of the
invalidated step) and a backward request leaves the current step unchanged
(it does not rewind), in both flows. -/
theorem navigation_on_absent_step
    (st : CState) (cur : CStep) (cat : Option String) (mcur : MStep)
    (hc : cur ∉ getStepSequenceC st) (hm : mcur ∉ getStepSequenceM cat) :
    getNextStepC st cur = .done ∧ prevStepC st cur = cur ∧
    getNextStepM cat mcur = .done ∧ prevStepM cat mcur = mcur := by
  refine ⟨?_, ?_, ?_, ?_⟩
  · unfold getNextStepC
    simp [hc]
  · unfold prevStepC
    simp [hc]
  · unfold getNextStepM
    simp [hm]
  · unfold prevStepM
    simp [hm]

/-- Witness for `navigation_on_absent_step`. -/
theorem navigation_on_absent_step_witness :
    getNextStepC { template := some "t" } .readme = .done ∧
    prevStepC { template := some "t" } .readme = .readme ∧
    getNextStepM (some "basic") .featuresWiki = .done ∧
    prevStepM (some "basic") .featuresWiki = .featuresWiki :=
  navigation_on_absent_step { template := some "t" } .readme (some "basic") .featuresWiki
    (by decide) (by decide)

/-! ## Claim theorems: the settings patch -/

theorem mem_includeKey {k' k : SettingKey} {c : Bool} :
    k' ∈ includeKey c k ↔ c = true ∧ k' = k := by
  unfold includeKey
  split <;> simp_all

theorem map_flag_ne (a b : Option Bool) :
    a.map SettingVal.flag ≠ b.map SettingVal.flag ↔ a ≠ b := by
  cases a <;> cases b <;> simp

theorem map_str_ne (a b : Option String) :
    a.map SettingVal.str ≠ b.map SettingVal.str ↔ a ≠ b := by
  cases a <;> cases b <;> simp

/-- **C4.** The settings patch contains exactly the supplied keys whose value
differs from the current remote value; when every supplied key equals the
current value the patch is empty and no remote PATCH call is made; and each
boolean step of the modification flow writes exactly its own key into the
modifications record. -/
theorem modification_patch_is_exact_diff :
    (∀ (m cur : RepositorySettings) (k : SettingKey),
        k ∈ patchKeys m (some cur) ↔ (getKey m k).isSome ∧ getKey m k ≠ getKey cur k) ∧
    (∀ (m cur : RepositorySettings) (ok : Bool),
        (∀ k, getKey m k = none ∨ getKey m k = getKey cur k) →
        patchKeys m (some cur) = [] ∧
        (applyRepositorySettings m (some cur) ok).apiCalled = false ∧
        (applyRepositorySettings m (some cur) ok).noChanges = true) ∧
    (∀ (st : MState) (s : MStep) (k : SettingKey) (b : Bool) (st2 : MState) (s2 : MStep),
        boolKeyOfM s = some k →
        stepModify st s (.boolAnswer b) = .toStep s2 st2 →
        st2.modifications = setFlagKey k b st.modifications) := by
  have hmem : ∀ (m cur : RepositorySettings) (k : SettingKey),
      k ∈ patchKeys m (some cur) ↔ (getKey m k).isSome ∧ getKey m k ≠ getKey cur k := by
    intro m cur k
    cases k <;>
      simp [patchKeys, mem_includeKey, getKey, diffFrom, map_flag_ne, map_str_ne,
        ne_comm]
  refine ⟨hmem, ?_, ?_⟩
  · intro m cur ok h
    have hempty : patchKeys m (some cur) = [] := by
      rw [List.eq_nil_iff_forall_not_mem]
      intro k hk
      rcases (hmem m cur k).1 hk with ⟨hsome, hne⟩
      rcases h k with h0 | h0
      · rw [h0] at hsome
        simp at hsome
      · exact hne h0
    refine ⟨hempty, ?_, ?_⟩ <;>
      simp [applyRepositorySettings, hempty]
  · intro st s k b st2 s2 hkey hstep
    cases s <;> simp only [boolKeyOfM, Option.some.injEq, reduceCtorEq] at hkey <;>
      subst hkey <;>
      simp only [stepModify, boolKeyOfM, MStepOutcome.toStep.injEq] at hstep <;>
      rw [← hstep.2]

/-- Witness for `modification_patch_is_exact_diff`. -/
theorem modification_patch_is_exact_diff_witness :
    SettingKey.hasWiki ∈
      patchKeys { hasWiki := some false } (some { hasWiki := some true }) ∧
    patchKeys { hasWiki := some true } (some { hasWiki := some true }) = [] ∧
    (applyRepositorySettings { hasWiki := some true }
      (some { hasWiki := some true }) true).apiCalled = false ∧
    ({ selectedCategory := some "features",
       modifications := {} : MState } : MState).modifications = {} := by
  refine ⟨?_, ?_, ?_, rfl⟩
  · exact (modification_patch_is_exact_diff.1 { hasWiki := some false }
      { hasWiki := some true } .hasWiki).2 (by decide)
  · exact (modification_patch_is_exact_diff.2.1 { hasWiki := some true }
      { hasWiki := some true } true (by decide)).1
  · exact (modification_patch_is_exact_diff.2.1 { hasWiki := some true }
      { hasWiki := some true } true (by decide)).2.1

/-! ## Claim theorems: creation-flow transitions -/

/-- **C2 counterexample.**  Run the creation flow with owner `me`, name
`repo`, empty description, private visibility, template `o/t`, and then a
`← Back` selection on the issue step (the only step after the template one at
that point).  The back selection does not navigate back past the template
step: it is converted into the default `No` answer of the issue step, the
wizard advances to the branch step (which auto-skips to the workspace step),
the stored template value is still `o/t`, and the README/license steps are
still absent from the active sequence. -/
theorem back_past_template_cex :
    runCreateWizard 20 .owner {}
      [.pickOwner "me", .enterName "repo", .enterDescription "",
       .pickVisibility "private", .templateChoice true (some "o/t"),
       .backSel none] =
    .pending .workspace
      { selectedOwner := some "me", name := some "repo", description := some "",
        visibility := some "private", useTemplate := some "Yes",
        template := some "o/t", addReadme := some "No", license := none,
        createIssue := some "No", createBranch := some "No" } ∧
    ({ selectedOwner := some "me", name := some "repo", description := some "",
       visibility := some "private", useTemplate := some "Yes",
       template := some "o/t", addReadme := some "No", license := none,
       createIssue := some "No", createBranch := some "No" } : CState).template =
      some "o/t" ∧
    CStep.readme ∉ getStepSequenceC
      { selectedOwner := some "me", name := some "repo", description := some "",
        visibility := some "private", useTemplate := some "Yes",
        template := some "o/t", addReadme := some "No", license := none,
        createIssue := some "No", createBranch := some "No" } := by
  refine ⟨?_, rfl, by decide⟩
  decide

/-- **C2 (amended).**  A `← Back` selection on the issue step (the step
reached after choosing a template) does not rewind: it is converted to the
default `No issue` answer, the wizard advances, and the stored template value
is left untouched.  The template value is cleared and the README/license
steps restored to the active sequence only by re-answering the template step
with `No` (or by its back selection, which converts to that same `No`
answer). -/
theorem back_past_template_behavior (st : CState) (e : Option String) :
    (stepCreate st .issue (.backSel e) =
      .toStep
        (getNextStepC { st with createIssue := some "No", issueTitle := none,
                                issueBody := none } .issue)
        { st with createIssue := some "No", issueTitle := none, issueBody := none } ∧
      ({ st with createIssue := some "No", issueTitle := none,
                 issueBody := none } : CState).template = st.template) ∧
    (stepCreate st .template (.templateChoice false none) =
      .toStep .readme { st with useTemplate := some "No", template := none } ∧
     stepCreate st .template (.backSel e) =
      .toStep .readme { st with useTemplate := some "No", template := none } ∧
     CStep.readme ∈ getStepSequenceC { st with useTemplate := some "No", template := none } ∧
     CStep.license ∈ getStepSequenceC { st with useTemplate := some "No", template := none }) := by
  refine ⟨⟨rfl, rfl⟩, rfl, rfl, ?_, ?_⟩ <;>
    simp [getStepSequenceC, jsFalsyStr]

/-- **C3.**  The two hard-coded conditional edges of the creation-flow
sequencer:
(i) answering the template step with `Yes` and a non-empty template name
stores the template, forces the README flag to `No`, clears the license, and
jumps directly to the issue step, README and license being absent from the
recomputed sequence;
(ii) when issue creation was declined, the branch step consumes no prompt at
all and auto-skips to the workspace step recording `no branch`;
and these are the only such edges: the computed sequence depends on the state
only through the template field, no step other than the template step ever
writes that field, every other prompting configuration renders a real prompt
(dismissing it cancels), and the only promptless transitions are the branch
auto-skip and the (defensive, unreachable after the first step) owner-missing
guard of the name step. -/
theorem creation_flow_conditional_edges :
    (∀ (st : CState) (t : String), t ≠ "" →
      stepCreate st .template (.templateChoice true (some t)) =
        .toStep .issue
          { st with useTemplate := some "Yes", template := some t,
                    addReadme := some "No", license := none } ∧
      CStep.readme ∉ getStepSequenceC
        { st with useTemplate := some "Yes", template := some t,
                  addReadme := some "No", license := none } ∧
      CStep.license ∉ getStepSequenceC
        { st with useTemplate := some "Yes", template := some t,
                  addReadme := some "No", license := none } ∧
      getNextStepC
        { st with useTemplate := some "Yes", template := some t,
                  addReadme := some "No", license := none } .template = .issue) ∧
    (∀ st : CState, st.createIssue = some "No" →
      autoStepC st .branch =
        some (.workspace, { st with createBranch := some "No", branchName := none })) ∧
    (∀ st1 st2 : CState, st1.template = st2.template →
      getStepSequenceC st1 = getStepSequenceC st2) ∧
    (∀ (st : CState) (s : CStep) (a : CAnswer) (s2 : CStep) (st2 : CState),
      s ≠ .template → stepCreate st s a = .toStep s2 st2 → st2.template = st.template) ∧
    (∀ (st : CState) (s : CStep), s ≠ .done → autoStepC st s = none →
      stepCreate st s .dismiss = .cancelled) ∧
    (∀ (st : CState) (s : CStep) (x : CStep × CState), autoStepC st s = some x →
      (s = .name ∧ st.selectedOwner = none) ∨ (s = .branch ∧ st.createIssue = some "No")) := by
  refine ⟨?_, ?_, ?_, ?_, ?_, ?_⟩
  · intro st t ht
    refine ⟨rfl, ?_, ?_, ?_⟩ <;>
      simp [getStepSequenceC, getNextStepC, jsFalsyStr, ht]
  · intro st h
    simp [autoStepC, h]
  · intro st1 st2 h
    unfold getStepSequenceC
    rw [h]
  · intro st s a s2 st2 hs hstep
    cases s <;> cases a <;>
      simp only [stepCreate, buildOptions] at hstep <;>
      (try exact absurd rfl hs) <;>
      (try (repeat' split at hstep)) <;>
      (try cases hstep) <;>
      simp_all
  · intro st s hdone hauto
    cases s <;> simp_all [stepCreate, autoStepC]
  · intro st s x hauto
    cases s <;> simp_all [autoStepC]

/-- Witness for `creation_flow_conditional_edges`. -/
theorem creation_flow_conditional_edges_witness :
    stepCreate {} .template (.templateChoice true (some "o/t")) =
      .toStep .issue
        { useTemplate := some "Yes", template := some "o/t",
          addReadme := some "No", license := none } ∧
    autoStepC { createIssue := some "No" } .branch =
      some (.workspace, { createIssue := some "No", createBranch := some "No" }) ∧
    getStepSequenceC { name := some "x" } = getStepSequenceC { name := some "y" } ∧
    stepCreate {} .owner .dismiss = .cancelled :=
  ⟨(creation_flow_conditional_edges.1 {} "o/t" (by decide)).1,
   creation_flow_conditional_edges.2.1 { createIssue := some "No" } rfl,
   creation_flow_conditional_edges.2.2.1 { name := some "x" } { name := some "y" } rfl,
   creation_flow_conditional_edges.2.2.2.2.1 {} .owner (by decide) rfl⟩

/-! ## Claim theorems: sub-flow back-navigation -/

/-- **C5 counterexample** (modification flow).  Pick category `features`,
answer the wiki step with `false`, then back out twice (to the wiki step, then
to the category step).  The run ends on the category step with
`modifications.hasWiki = some false` still recorded, whereas entering the
sub-flow and immediately backing out (or never entering) leaves the record
empty: backing out of the first step of a modification sub-flow does **not**
discard the values entered inside it. -/
theorem subflow_back_not_reverted_cex :
    runModifyWizard 10 .category {}
      [.pickCategory "features", .boolAnswer false, .dismiss, .dismiss] =
      .pending .category
        { selectedCategory := some "features",
          modifications := { hasWiki := some false } } ∧
    runModifyWizard 10 .category {} [.pickCategory "features", .dismiss] =
      .pending .category
        { selectedCategory := some "features", modifications := {} } ∧
    ({ hasWiki := some false } : RepositorySettings) ≠ ({} : RepositorySettings) := by
  refine ⟨?_, ?_, ?_⟩ <;> decide

/-- **C5 (amended).**  Backing out of the first prompt of the creation flow's
advanced-settings sub-flow is equivalent to never entering it (the advanced
choice is reset to `No` and the settings record to `undefined`, whatever was
entered inside); in the modification flow, a back selection on any
non-category step merely returns to the previous step with the wizard state
(including every modification already entered in the sub-flow) unchanged, so
values entered inside a category sub-flow are retained rather than
discarded. -/
theorem subflow_back_navigation (st : CState) (rs : List (Option Bool))
    (mst : MState) (ms : MStep)
    (hexit : advLoop 0 {} rs = .exited)
    (hms : ms ≠ .category ∧ ms ≠ .done) :
    stepCreate st .advanced (.advancedChoice true rs) =
      stepCreate st .advanced (.advancedChoice false []) ∧
    stepModify mst ms .dismiss = .toStep (prevStepM mst.selectedCategory ms) mst := by
  constructor
  · simp [stepCreate, hexit]
  · obtain ⟨h1, h2⟩ := hms
    cases ms <;> simp_all [stepModify, boolKeyOfM]

/-- Witness for `subflow_back_navigation`: entering the advanced sub-flow,
answering one setting and backing out twice behaves exactly like answering
`No`; and a back selection on the wiki step of the features sub-flow returns
to the category step with the state unchanged. -/
theorem subflow_back_navigation_witness :
    stepCreate {} .advanced (.advancedChoice true [some true, none, none]) =
      stepCreate {} .advanced (.advancedChoice false []) ∧
    stepModify { selectedCategory := some "features",
                 modifications := { hasWiki := some false } } .featuresWiki .dismiss =
      .toStep (prevStepM (some "features") .featuresWiki)
        { selectedCategory := some "features",
          modifications := { hasWiki := some false } } :=
  subflow_back_navigation {} [some true, none, none]
    { selectedCategory := some "features", modifications := { hasWiki := some false } }
    .featuresWiki (by decide) (by decide)

/-- **C9.** `generateBranchName(5, "feature") = "5-feature"`,
`generateBranchName(undefined, "main") = "main"`, and
`generateBranchName(0, "x") = "x"` (a zero issue number is treated as
absent). -/
theorem generateBranchName_examples :
    generateBranchName (some 5) "feature" = "5-feature" ∧
    generateBranchName none "main" = "main" ∧
    generateBranchName (some 0) "x" = "x" := by
  refine ⟨?_, rfl, rfl⟩
  rfl

/-- **C10.** `validateRepoName` and `validateBranchName` each return the same
verdict on a string and on its trimmed form: surrounding whitespace never
changes the result, and a string whose trimmed form is empty is rejected as
empty. -/
theorem validators_invariant_under_trim (s : String) :
    ((validateBranchName (jsTrimS s)).valid = (validateBranchName s).valid) ∧
    ((validateRepoName (jsTrimS s)).valid = (validateRepoName s).valid) ∧
    (jsTrim s.toList = [] →
      (validateBranchName s).valid = false ∧ (validateRepoName s).valid = false) := by
  refine ⟨?_, ?_, ?_⟩
  · show (validateBranchNameL (jsTrim s.toList)).valid = _
    simp only [validateBranchNameL, validateBranchName, jsTrim_idem]
  · show (validateRepoNameL (jsTrim s.toList)).valid = _
    simp only [validateRepoNameL, validateRepoName, jsTrim_idem]
  · intro h
    have h' : jsTrim s.data = [] := h
    constructor
    · show (branchChecks (jsTrim s.data)).valid = false
      rw [h']
      rfl
    · show (repoChecks (jsTrim s.data)).valid = false
      rw [h']
      rfl

/-- Witness for `validators_invariant_under_trim`: a padded name validates the
same as its trimmed form, and a whitespace-only string is rejected by both
validators. -/
theorem validators_invariant_under_trim_witness :
    ((validateBranchName (jsTrimS "  my-branch  ")).valid =
      (validateBranchName "  my-branch  ").valid) ∧
    (validateBranchName "   ").valid = false ∧ (validateRepoName "   ").valid = false :=
  ⟨(validators_invariant_under_trim "  my-branch  ").1,
   (validators_invariant_under_trim "   ").2.2 (by decide)⟩

end RepoFactory
